import Mathlib

/-!
Turbot Terraform provider: policy-setting and grant reconcilers.

A shallow embedding of `turbot/resource_policy_setting.go` and
`turbot/resource_grant.go`.

* `schema.ResourceData` is a record with one field per schema key plus the
  stored identity `id`; `d.Get(k)` is field access (an unset string reads as
  `""`), `d.Set(k, v)` is a record update, `d.SetId` updates `id`.
* The remote API (`apiClient.Client`) is a record of state-passing functions
  over an arbitrary world type `σ`; every reconciler returns the Go return
  value together with the resulting resource data, the resulting world and the
  list of API calls it issued, in order.
* Go library functions the reconcilers call (`fmt.Sprintf("%v", _)`,
  `yaml.Unmarshal`, `encryptValue`, the error classifiers) are the fields of
  `Lib`; those of the grant reconcilers are the fields of `GrantLib`.
* `BuildApiUrl` of the package `apiClient` has no source here; it is modelled
  from the four rules of §4.2 of the specification. What it does with the host
  name, which §4.2 leaves open and `TestBuildApiUrl` pins at two hosts, is the
  parameter `hostRule`. The table of `TestBuildApiUrl` is embedded from
  `client_test.go`.
-/

namespace Turbot

/-! ## Data model -/

/-- A Go `error` value, identified by the text of `err.Error()`. -/
structure GoError where
  message : String
deriving DecidableEq, Repr

/-- The struct `apiClient.TurbotPolicyMetadata`. -/
structure TurbotPolicyMetadata where
  Id : String
  ParentId : String
  ResourceId : String
  Akas : List String
deriving DecidableEq, Repr

/-- The struct `apiClient.PolicySetting`. `Value` has Go type `interface{}`:
`none` is `nil`, `some x` a non-nil dynamic value of type `V`. -/
structure PolicySetting (V : Type) where
  Value : Option V
  ValueSource : String
  Default : Bool
  Precedence : String
  Template : String
  TemplateInput : String
  Input : String
  Note : String
  ValidFromTimestamp : String
  ValidToTimestamp : String
  Turbot : TurbotPolicyMetadata
deriving DecidableEq, Repr

/-- A Go `map[string]string`, kept as an association list with unique keys. -/
structure Payload where
  entries : List (String × String)
deriving DecidableEq, Repr

/-- The lookup `m[k]` with presence flag, as in `v, ok := m[k]`. -/
def Payload.lookup (m : Payload) (k : String) : Option String :=
  m.entries.lookup k

/-- The index expression `m[k]`: the zero value `""` when `k` is absent. -/
def Payload.index (m : Payload) (k : String) : String :=
  (m.lookup k).getD ""

/-- The builtin `delete(m, k)`. -/
def Payload.delete (m : Payload) (k : String) : Payload :=
  ⟨m.entries.filter (fun kv => kv.1 != k)⟩

/-- The assignment `m[k] = v`. -/
def Payload.assign (m : Payload) (k v : String) : Payload :=
  ⟨(k, v) :: (m.delete k).entries⟩

/-- The `schema.ResourceData` of a `turbot_policy_setting`: the stored
identity and one field per key of the resource schema. -/
structure ResourceData where
  id : String
  policy_type : String
  resource : String
  value : String
  value_source : String
  value_key_fingerprint : String
  value_source_key_fingerprint : String
  precedence : String
  template : String
  template_input : String
  note : String
  valid_from_timestamp : String
  valid_to_timestamp : String
  value_source_used : Bool
  pgp_key : String
deriving DecidableEq, Repr

/-- The method `d.SetId`. -/
def ResourceData.SetId (d : ResourceData) (v : String) : ResourceData :=
  { d with id := v }

/-- The method `d.GetOk` on a string key: the value, and whether it is set to
something other than the zero value `""`. -/
def GetOkString (v : String) : String × Bool :=
  (v, v != "")

/-- The `schema.ResourceData` of a `turbot_grant`. The computed list
`resource_akas` is `none` while it is not set. -/
structure GrantResourceData where
  id : String
  resource : String
  resource_akas : Option (List String)
  permission_type : String
  permission_level : String
  profile_id : String
deriving DecidableEq, Repr

/-- The method `d.GetOk` on a list key: the list (the zero value `[]` when not
set), and whether it is set to something other than the empty list. -/
def GetOkList (v : Option (List String)) : List String × Bool :=
  match v with
  | none => ([], false)
  | some l => (l, !l.isEmpty)

/-! ## External collaborators -/

/-- Library functions used by the reconcilers.
* `Sprintf_v x` is `fmt.Sprintf("%v", x)` for a non-nil `x`;
* `yamlUnmarshal s` is the content of `i` after
  `yaml.Unmarshal([]byte(s), &i)` on a nil `interface{}` (the returned error
  is dropped by the caller);
* `encryptValue pgpKey value` returns `(fingerprint, ciphertext)` or an error;
* `NotFoundError`, `FailedValidationError` are the `apiClient` classifiers. -/
structure Lib (V : Type) where
  Sprintf_v : V → String
  yamlUnmarshal : String → Option V
  encryptValue : String → String → Except GoError (String × String)
  NotFoundError : GoError → Bool
  FailedValidationError : GoError → Bool

/-- The policy-setting operations of `apiClient.Client`, each a function of
the state `σ` of the remote side returning its Go results and the next
state. -/
structure Client (σ V : Type) where
  FindPolicySetting : σ → String → String → Except GoError (PolicySetting V) × σ
  CreatePolicySetting :
    σ → String → String → Payload → Except GoError (PolicySetting V) × σ
  ReadPolicySetting : σ → String → Except GoError (PolicySetting V) × σ
  UpdatePolicySetting : σ → String → Payload → Option GoError × σ
  DeletePolicySetting : σ → String → Option GoError × σ

/-- One call on the API client, with its arguments. -/
inductive ApiCall where
  | FindPolicySetting (policyTypeUri resourceAka : String)
  | CreatePolicySetting (policyTypeUri resourceAka : String) (commandPayload : Payload)
  | ReadPolicySetting (id : String)
  | UpdatePolicySetting (id : String) (commandPayload : Payload)
  | DeletePolicySetting (id : String)
deriving DecidableEq, Repr

/-- What a reconciler leaves behind: its Go return value `ret`, the resource
data `d`, the remote state `world` and the API calls issued, oldest first. -/
structure Result (σ α : Type) where
  ret : α
  d : ResourceData
  world : σ
  calls : List ApiCall

/-- The payloads of the write calls (`CreatePolicySetting`,
`UpdatePolicySetting`) in a call list, in order. -/
def writePayloads : List ApiCall → List Payload
  | [] => []
  | ApiCall.CreatePolicySetting _ _ p :: cs => p :: writePayloads cs
  | ApiCall.UpdatePolicySetting _ p :: cs => p :: writePayloads cs
  | _ :: cs => writePayloads cs

/-! ## `resource_policy_setting.go` -/

/-- The function `settingValueToString`. -/
def settingValueToString {V : Type} (lib : Lib V) (value : Option V) : String :=
  match value with
  | none => ""
  | some x => lib.Sprintf_v x

/-- The expression `fmt.Sprintf("%v", i)` on an `interface{}`: a nil interface
prints as `<nil>`. -/
def Sprintf_v_iface {V : Type} (lib : Lib V) (i : Option V) : String :=
  match i with
  | none => "<nil>"
  | some x => lib.Sprintf_v x

/-- The function `buildPayload`. -/
def buildPayload (d : ResourceData) : Payload :=
  let commandPayload : List (String × String) :=
    [("value", d.value),
     ("precedence", d.precedence),
     ("template", d.template),
     ("templateInput", d.template_input),
     ("note", d.note),
     ("validFromTimestamp", d.valid_from_timestamp),
     ("validToTimestamp", d.valid_to_timestamp)]
  -- remove nil entries from commandPayload
  ⟨commandPayload.filter (fun kv => !(kv.2 == ""))⟩

/-- The function `suppressIfEncryptedOrValueSourceMatches`. -/
def suppressIfEncryptedOrValueSourceMatches
    (_k old new : String) (d : ResourceData) : Bool :=
  if old == "" then false
  else
    let keyPresent := (GetOkString d.pgp_key).2
    let old := if d.value_source_used then d.value_source else old
    keyPresent || new == old

/-- The function `storeValue`: the resource data it leaves and the error it
returns. -/
def storeValue {V : Type} (lib : Lib V) (d : ResourceData) (setting : PolicySetting V) :
    ResourceData × Option GoError :=
  match GetOkString d.pgp_key with
  | (pgpKey, true) =>
    match lib.encryptValue pgpKey (settingValueToString lib setting.Value) with
    | .error err => (d, some err)
    | .ok (valueFingerprint, encryptedValue) =>
      let d := { d with value := encryptedValue }
      let d := { d with value_key_fingerprint := valueFingerprint }
      match lib.encryptValue pgpKey setting.ValueSource with
      | .error err => (d, some err)
      | .ok (valueSourceFingerprint, encryptedValueSource) =>
        let d := { d with value_source := encryptedValueSource }
        let d := { d with value_source_key_fingerprint := valueSourceFingerprint }
        (d, none)
  | (_, false) =>
    let d := { d with value := settingValueToString lib setting.Value }
    let d := { d with value_source := setting.ValueSource }
    (d, none)

/-- The function `setValueFromValueSource`. -/
def setValueFromValueSource {V : Type} (lib : Lib V) (valueSource : String)
    (d : ResourceData) : ResourceData :=
  let i := lib.yamlUnmarshal valueSource
  let d := { d with value := Sprintf_v_iface lib i }
  let d := { d with value_source := valueSource }
  { d with value_source_used := true }

/-- The `fmt.Errorf` of `resourceTurbotPolicySettingCreate` for a setting that
already exists. -/
def alreadyExistsError (policyTypeUri resourceAka id : String) : GoError :=
  ⟨"A policy setting for policy type: \x27" ++ policyTypeUri ++ "\x27, resource: \x27"
    ++ resourceAka ++ "\x27 already exists ( id: " ++ id
    ++ " ). To manage the existing setting using Terraform, "
    ++ "import it using command \x27terraform import <resource_address> <id>\x27"⟩

/-- The function `resourceTurbotPolicySettingExists`. -/
def resourceTurbotPolicySettingExists {σ V : Type} (lib : Lib V) (client : Client σ V)
    (w : σ) (d : ResourceData) : Result σ (Bool × Option GoError) :=
  let id := d.id
  match client.ReadPolicySetting w id with
  | (.error err, w1) =>
    if lib.NotFoundError err then ⟨(false, none), d, w1, [.ReadPolicySetting id]⟩
    else ⟨(false, some err), d, w1, [.ReadPolicySetting id]⟩
  | (.ok _, w1) => ⟨(true, none), d, w1, [.ReadPolicySetting id]⟩

/-- The function `resourceTurbotPolicySettingCreate`. The error returned by
`storeValue` is dropped, as in the source. -/
def resourceTurbotPolicySettingCreate {σ V : Type} (lib : Lib V) (client : Client σ V)
    (w : σ) (d : ResourceData) : Result σ (Option GoError) :=
  let policyTypeUri := d.policy_type
  let resourceAka := d.resource
  let c0 := ApiCall.FindPolicySetting policyTypeUri resourceAka
  match client.FindPolicySetting w policyTypeUri resourceAka with
  | (.error err, w1) => ⟨some err, d, w1, [c0]⟩
  | (.ok existingSetting, w1) =>
    if existingSetting.Value.isSome then
      ⟨some (alreadyExistsError policyTypeUri resourceAka existingSetting.Turbot.Id),
        d, w1, [c0]⟩
    else
      let commandPayload := buildPayload d
      let c1 := ApiCall.CreatePolicySetting policyTypeUri resourceAka commandPayload
      match client.CreatePolicySetting w1 policyTypeUri resourceAka commandPayload with
      | (.error err, w2) =>
        if !lib.FailedValidationError err then
          ⟨some err, d.SetId "", w2, [c0, c1]⟩
        else
          -- so we have a data validation error, try the value source
          let commandPayload :=
            commandPayload.assign "valueSource" (commandPayload.index "value")
          let commandPayload := commandPayload.delete "value"
          let c2 := ApiCall.CreatePolicySetting policyTypeUri resourceAka commandPayload
          match client.CreatePolicySetting w2 policyTypeUri resourceAka commandPayload with
          | (.error err, w3) => ⟨some err, d.SetId "", w3, [c0, c1, c2]⟩
          | (.ok setting, w3) =>
            let d := setValueFromValueSource lib (commandPayload.index "valueSource") d
            let d := (storeValue lib d setting).1
            ⟨none, d.SetId setting.Turbot.Id, w3, [c0, c1, c2]⟩
      | (.ok setting, w2) =>
        let d := (storeValue lib d setting).1
        ⟨none, d.SetId setting.Turbot.Id, w2, [c0, c1]⟩

/-- The function `resourceTurbotPolicySettingUpdate`. -/
def resourceTurbotPolicySettingUpdate {σ V : Type} (lib : Lib V) (client : Client σ V)
    (w : σ) (d : ResourceData) : Result σ (Option GoError) :=
  let id := d.id
  let commandPayload := buildPayload d
  let c1 := ApiCall.UpdatePolicySetting id commandPayload
  match client.UpdatePolicySetting w id commandPayload with
  | (some err, w1) =>
    if !lib.FailedValidationError err then
      ⟨some err, d.SetId "", w1, [c1]⟩
    else
      -- so we have a data validation error - try using value as valueSource
      let commandPayload :=
        commandPayload.assign "valueSource" (commandPayload.index "value")
      let commandPayload := commandPayload.delete "value"
      let c2 := ApiCall.UpdatePolicySetting id commandPayload
      match client.UpdatePolicySetting w1 id commandPayload with
      | (some err, w2) => ⟨some err, d.SetId "", w2, [c1, c2]⟩
      | (none, w2) =>
        let d := setValueFromValueSource lib (commandPayload.index "valueSource") d
        ⟨none, d, w2, [c1, c2]⟩
  | (none, w1) => ⟨none, d, w1, [c1]⟩

/-- The function `resourceTurbotPolicySettingRead`. The error returned by
`storeValue` is dropped, as in the source. -/
def resourceTurbotPolicySettingRead {σ V : Type} (lib : Lib V) (client : Client σ V)
    (w : σ) (d : ResourceData) : Result σ (Option GoError) :=
  let id := d.id
  match client.ReadPolicySetting w id with
  | (.error err, w1) =>
    if lib.NotFoundError err then
      -- setting was not found - clear id
      ⟨some err, d.SetId "", w1, [.ReadPolicySetting id]⟩
    else ⟨some err, d, w1, [.ReadPolicySetting id]⟩
  | (.ok setting, w1) =>
    let d := (storeValue lib d setting).1
    let d := { d with precedence := setting.Precedence }
    let d := { d with template := setting.Template }
    let d := { d with template_input := setting.TemplateInput }
    let d := { d with note := setting.Note }
    let d := { d with valid_from_timestamp := setting.ValidFromTimestamp }
    let d := { d with valid_to_timestamp := setting.ValidToTimestamp }
    ⟨none, d, w1, [.ReadPolicySetting id]⟩

/-- The function `resourceTurbotPolicySettingDelete`. -/
def resourceTurbotPolicySettingDelete {σ V : Type} (client : Client σ V)
    (w : σ) (d : ResourceData) : Result σ (Option GoError) :=
  let id := d.id
  match client.DeletePolicySetting w id with
  | (some err, w1) => ⟨some err, d, w1, [.DeletePolicySetting id]⟩
  | (none, w1) =>
    -- clear the id to show we have deleted
    ⟨none, d.SetId "", w1, [.DeletePolicySetting id]⟩

/-! ## `resource_grant.go` -/

/-- The struct `apiClient.TurbotGrantMetadata`. -/
structure TurbotGrantMetadata where
  Id : String
  ProfileId : String
  ResourceId : String
deriving DecidableEq, Repr

/-- The struct `apiClient.Grant`. -/
structure Grant where
  Turbot : TurbotGrantMetadata
  PermissionTypeId : String
  PermissionLevelId : String
deriving DecidableEq, Repr

/-- The variable `grantDataMap`: Terraform properties and the Turbot
properties they are sent as. -/
def grantDataMap : List (String × String) :=
  [("permission_type", "permissionTypeAka"),
   ("permission_level", "permissionLevelAka")]

/-- What the grant reconcilers use besides the client: the classifier
`apiclient.NotFoundError` and the helper `mapFromResourceDataWithPropertyMap`,
which builds the property map sent with `CreateGrant`. -/
structure GrantLib where
  NotFoundError : GoError → Bool
  mapFromResourceDataWithPropertyMap : GrantResourceData → List (String × String) → Payload

/-- The grant operations of `apiclient.Client`, each a function of the state
`σ` of the remote side returning its Go results and the next state. -/
structure GrantClient (σ : Type) where
  GrantExists : σ → String → (Bool × Option GoError) × σ
  CreateGrant : σ → String → String → Payload → Except GoError TurbotGrantMetadata × σ
  GetResourceAkas : σ → String → Except GoError (List String) × σ
  ReadGrant : σ → String → Except GoError Grant × σ
  DeleteGrant : σ → String → Option GoError × σ

/-- One grant call on the API client, with its arguments. -/
inductive GrantApiCall where
  | GrantExists (id : String)
  | CreateGrant (profileId resourceAka : String) (data : Payload)
  | GetResourceAkas (resourceAka : String)
  | ReadGrant (id : String)
  | DeleteGrant (id : String)
deriving DecidableEq, Repr

/-- What a grant reconciler leaves behind: its Go return value `ret`, the
resource data `d`, the remote state `world` and the API calls issued, oldest
first. -/
structure GrantResult (σ α : Type) where
  ret : α
  d : GrantResourceData
  world : σ
  calls : List GrantApiCall

/-- The method `d.SetId` on the resource data of a grant. -/
def GrantResourceData.SetId (d : GrantResourceData) (v : String) : GrantResourceData :=
  { d with id := v }

/-- The function `resourceTurbotGrantExists`. -/
def resourceTurbotGrantExists {σ : Type} (client : GrantClient σ)
    (w : σ) (d : GrantResourceData) : GrantResult σ (Bool × Option GoError) :=
  let id := d.id
  match client.GrantExists w id with
  | (r, w1) => ⟨r, d, w1, [.GrantExists id]⟩

/-- The function `resourceTurbotGrantCreate`. -/
def resourceTurbotGrantCreate {σ : Type} (lib : GrantLib) (client : GrantClient σ)
    (w : σ) (d : GrantResourceData) : GrantResult σ (Option GoError) :=
  let resourceAka := d.resource
  let profileId := d.profile_id
  -- build map of Grant properties
  let data := lib.mapFromResourceDataWithPropertyMap d grantDataMap
  let c1 := GrantApiCall.CreateGrant profileId resourceAka data
  match client.CreateGrant w profileId resourceAka data with
  | (.error err, w1) => ⟨some err, d, w1, [c1]⟩
  | (.ok turbotGrantMetadata, w1) =>
    -- set resource_akas property by loading resource resource and fetching the akas
    let c2 := GrantApiCall.GetResourceAkas resourceAka
    match client.GetResourceAkas w1 resourceAka with
    | (.error err, w2) => ⟨some err, d, w2, [c1, c2]⟩
    | (.ok resource_akas, w2) =>
      -- assign resource akas
      let d := { d with resource_akas := some resource_akas }
      -- assign the id
      ⟨none, d.SetId turbotGrantMetadata.Id, w2, [c1, c2]⟩

/-- The function `resourceTurbotGrantRead`. The keys `permission_level_id` and
`permission_type_id` are not in the schema of the resource, so `d.Set` on them
returns an error (dropped by the source) and stores nothing. -/
def resourceTurbotGrantRead {σ : Type} (lib : GrantLib) (client : GrantClient σ)
    (w : σ) (d : GrantResourceData) : GrantResult σ (Option GoError) :=
  let id := d.id
  let c1 := GrantApiCall.ReadGrant id
  match client.ReadGrant w id with
  | (.error err, w1) =>
    if lib.NotFoundError err then
      -- Grant was not found - clear id
      ⟨some err, d.SetId "", w1, [c1]⟩
    else ⟨some err, d, w1, [c1]⟩
  | (.ok grant, w1) =>
    let c2 := GrantApiCall.GetResourceAkas grant.Turbot.ResourceId
    match client.GetResourceAkas w1 grant.Turbot.ResourceId with
    | (.error err, w2) => ⟨some err, d, w2, [c1, c2]⟩
    | (.ok resource_akas, w2) =>
      let d := { d with profile_id := grant.Turbot.ProfileId }
      let d := { d with resource := grant.Turbot.ResourceId }
      let d := { d with resource_akas := some resource_akas }
      ⟨none, d, w2, [c1, c2]⟩

/-- The function `resourceTurbotGrantDelete`. -/
def resourceTurbotGrantDelete {σ : Type} (client : GrantClient σ)
    (w : σ) (d : GrantResourceData) : GrantResult σ (Option GoError) :=
  let id := d.id
  match client.DeleteGrant w id with
  | (some err, w1) => ⟨some err, d, w1, [.DeleteGrant id]⟩
  | (none, w1) =>
    -- clear the id to show we have deleted
    ⟨none, d.SetId "", w1, [.DeleteGrant id]⟩

/-- The `for ... range` loop of `supressIfResourceAkaMatches`: `true` at the
first element equal to `new`, `false` when the list is exhausted. -/
def akaLoop (new : String) : List String → Bool
  | [] => false
  | aka :: rest => if aka == new then true else akaLoop new rest

/-- The function `supressIfResourceAkaMatches`. The type assertion to
`[]interface{}` succeeds on a `TypeList` key. -/
def supressIfResourceAkaMatches (_k _old new : String) (d : GrantResourceData) : Bool :=
  match GetOkList d.resource_akas with
  | (_, false) => false
  | (resource_Akas, true) => akaLoop new resource_Akas

/-! ## `apiClient`: `BuildApiUrl` and its test -/

/-- Modelled from the spec: the test on a character of not being the path
separator `/`, used by the model of `BuildApiUrl` to cut an input into scheme,
host and path. -/
def notSlash (c : Char) : Bool := c != '/'

/-- Modelled from the spec: the scheme of an input, for rule 1 of §4.2. The
function `BuildApiUrl` is not among the sources. An input has a scheme when it
reads `name://rest` with no `/` in `name`; the result is `(name, rest)`. -/
def urlScheme (cs : List Char) : Option (List Char × List Char) :=
  match cs.dropWhile notSlash with
  | '/' :: '/' :: rest =>
    if (cs.takeWhile notSlash).getLast? = some ':' then
      some ((cs.takeWhile notSlash).dropLast, rest)
    else none
  | _ => none

/-- Modelled from the spec: rule 1 of §4.2 for the missing `BuildApiUrl`, "if
input lacks a scheme, prepend `https://`"; the result is the scheme and what
follows `://`. -/
def ensureScheme (cs : List Char) : List Char × List Char :=
  match urlScheme cs with
  | some sr => sr
  | none => ("https".toList, cs)

/-- Modelled from the spec: rule 2 of §4.2 for the missing `BuildApiUrl`, "if
input has no path segment (or only `/`), append `/api/latest`": the path
becomes `/api/latest`. -/
def defaultPath (path : List Char) : List Char :=
  if path = [] ∨ path = ['/'] then "/api/latest".toList else path

/-- Modelled from the spec: rule 3 of §4.2 for the missing `BuildApiUrl`,
"strip a single trailing slash from any path". -/
def stripTrailingSlash (path : List Char) : List Char :=
  if path.getLast? = some '/' then path.dropLast else path

/-- Modelled from the spec: the final segment of a path, what follows its last
`/`, for rule 4 of §4.2 of the missing `BuildApiUrl`. -/
def finalSegment (path : List Char) : List Char :=
  (path.reverse.takeWhile notSlash).reverse

/-- Modelled from the spec: rule 4 of §4.2 for the missing `BuildApiUrl`,
"append `/graphql` if not already the final segment". -/
def appendGraphql (path : List Char) : List Char :=
  if finalSegment path = "graphql".toList then path else path ++ "/graphql".toList

/-- Modelled from the spec: the four rules of §4.2, applied in order, on the
characters of the input of the missing `BuildApiUrl`. The parameter `hostRule`
stands for what `BuildApiUrl` does with the host name, which §4.2 does not
describe: it returns the host to use, or the error that the contract of §4.2
allows. `TestBuildApiUrl` pins it at two hosts: `bananaman-turbot.putney` is
completed to `bananaman-turbot.putney.turbot.io`, and
`bananaman-turbot.putney.turbot.io` is kept. -/
def buildApiUrlChars (hostRule : String → Except GoError String) (input : List Char) :
    Except GoError (List Char) :=
  let (scheme, rest) := ensureScheme input
  let host := rest.takeWhile notSlash
  let path := rest.dropWhile notSlash
  match hostRule (String.mk host) with
  | .error err => .error err
  | .ok host =>
    let path := defaultPath path
    let path := stripTrailingSlash path
    let path := appendGraphql path
    .ok (scheme ++ "://".toList ++ host.data ++ path)

/-- Modelled from the spec: the function `BuildApiUrl` of the package
`apiClient`, whose source is missing (only `TestBuildApiUrl` is there). It
returns `(url, err)`: the url built by the four rules of §4.2 and a nil error,
or the empty string and the error of `hostRule`. -/
def BuildApiUrl (hostRule : String → Except GoError String) (rawWorkspace : String) :
    String × Option GoError :=
  match buildApiUrlChars hostRule rawWorkspace.data with
  | .ok url => (String.mk url, none)
  | .error err => ("", some err)

/-- The type `urlTest` of `TestBuildApiUrl`. -/
structure urlTest where
  url : String
  expectedUrl : String
  valid : Bool
deriving DecidableEq, Repr

/-- The body of the loop of `TestBuildApiUrl` on one row of its table: whether
its assertion passes (an error for an invalid row, the expected url for a
valid one). -/
def testBuildApiUrlRow (hostRule : String → Except GoError String) (test : urlTest) :
    Bool :=
  if !test.valid then (BuildApiUrl hostRule test.url).2.isSome
  else (BuildApiUrl hostRule test.url).1 == test.expectedUrl

/-! ## Concrete instances used to evaluate the definitions -/

/-- A small dynamic value: a string scalar or a list of strings. -/
inductive DemoValue where
  | str (s : String)
  | list (l : List String)
deriving DecidableEq, Repr

/-- The `%v` form of a `DemoValue`: a list prints as `[a b]`. -/
def demoSprintf_v : DemoValue → String
  | .str s => s
  | .list l => "[" ++ " ".intercalate l ++ "]"

/-- A YAML decoder for three kinds of document: the empty document (nil), the
flow sequence `[a, b]`, and anything else taken as a string scalar. -/
def demoYamlUnmarshal (s : String) : Option DemoValue :=
  if s == "" then none
  else if s == "[a, b]" then some (.list ["a", "b"])
  else some (.str s)

/-- A library instance over `DemoValue`: encryption under the key `"KEY"` tags
the plaintext and fails under any other key; errors are classified by their
exact message. -/
def demoLib : Lib DemoValue where
  Sprintf_v := demoSprintf_v
  yamlUnmarshal := demoYamlUnmarshal
  encryptValue := fun k v =>
    if k == "KEY" then .ok ("FP", "ENC(" ++ v ++ ")") else .error ⟨"bad pgp key"⟩
  NotFoundError := fun e => e.message == "Not Found"
  FailedValidationError := fun e => e.message == "Data validation failed"

/-- The remote side of the scripted client: the responses still to be given. -/
abbrev Script := List (Except GoError (PolicySetting DemoValue))

/-- The next scripted response; an exhausted script answers with an error. -/
def nextResponse (w : Script) : Except GoError (PolicySetting DemoValue) × Script :=
  match w with
  | [] => (.error ⟨"connection refused"⟩, [])
  | r :: rest => (r, rest)

/-- The error part of the next scripted response. -/
def nextError (w : Script) : Option GoError × Script :=
  match nextResponse w with
  | (.error e, w1) => (some e, w1)
  | (.ok _, w1) => (none, w1)

/-- An API client that answers every call with the next scripted response. -/
def scriptedClient : Client Script DemoValue where
  FindPolicySetting := fun w _ _ => nextResponse w
  CreatePolicySetting := fun w _ _ _ => nextResponse w
  ReadPolicySetting := fun w _ => nextResponse w
  UpdatePolicySetting := fun w _ _ => nextError w
  DeletePolicySetting := fun w _ => nextError w

/-- The zero `PolicySetting`: what a find returns when nothing exists. -/
def noSetting : PolicySetting DemoValue where
  Value := none
  ValueSource := ""
  Default := false
  Precedence := ""
  Template := ""
  TemplateInput := ""
  Input := ""
  Note := ""
  ValidFromTimestamp := ""
  ValidToTimestamp := ""
  Turbot := ⟨"", "", "", []⟩

/-- A setting as the API returns it after storing the list `[a, b]`. -/
def listSetting : PolicySetting DemoValue where
  Value := some (.list ["a", "b"])
  ValueSource := "[a, b]"
  Default := false
  Precedence := "required"
  Template := ""
  TemplateInput := ""
  Input := ""
  Note := ""
  ValidFromTimestamp := ""
  ValidToTimestamp := ""
  Turbot := ⟨"1706", "1001", "1002", []⟩

/-- A setting as the API returns it after storing the number one million: the
JSON number decodes to a `float64`, whose `%v` form is `1e+06`. -/
def millionSetting : PolicySetting DemoValue where
  Value := some (.str "1e+06")
  ValueSource := "1000000"
  Default := false
  Precedence := "required"
  Template := ""
  TemplateInput := ""
  Input := ""
  Note := ""
  ValidFromTimestamp := ""
  ValidToTimestamp := ""
  Turbot := ⟨"1707", "1001", "1002", []⟩

/-- The validation error of the API. -/
def validationError : GoError := ⟨"Data validation failed"⟩

/-- An error of the API that is neither a validation nor a not-found error. -/
def serverError : GoError := ⟨"Internal server error"⟩

/-- The not-found error of the API. -/
def notFoundError : GoError := ⟨"Not Found"⟩

/-- The resource data of a specification with `value = "[a, b]"` and default
precedence, before anything was created. -/
def demoData : ResourceData where
  id := ""
  policy_type := "tmod:@turbot/aws#/policy/types/tags"
  resource := "tmod:@turbot/turbot#/"
  value := "[a, b]"
  value_source := ""
  value_key_fingerprint := ""
  value_source_key_fingerprint := ""
  precedence := "required"
  template := ""
  template_input := ""
  note := ""
  valid_from_timestamp := ""
  valid_to_timestamp := ""
  value_source_used := false
  pgp_key := ""

/-- The resource data of an existing setting with identity `1706`. -/
def storedData : ResourceData :=
  { demoData with id := "1706" }

/-- One scripted answer of the grant API. -/
inductive GrantResponse where
  | failure (err : GoError)
  | metadata (m : TurbotGrantMetadata)
  | akas (l : List String)
  | grant (g : Grant)
  | done
deriving DecidableEq, Repr

/-- The error a scripted call returns: the scripted failure, or a refusal when
the script is exhausted or holds an answer of another kind. -/
def scriptedFailure : List GrantResponse → GoError
  | GrantResponse.failure err :: _ => err
  | _ => ⟨"connection refused"⟩

/-- A grant API client that answers every call with the next scripted
response. -/
def scriptedGrantClient : GrantClient (List GrantResponse) where
  GrantExists := fun w _ =>
    match w with
    | GrantResponse.grant _ :: rest => ((true, none), rest)
    | _ => ((false, some (scriptedFailure w)), w.tail)
  CreateGrant := fun w _ _ _ =>
    match w with
    | GrantResponse.metadata m :: rest => (.ok m, rest)
    | _ => (.error (scriptedFailure w), w.tail)
  GetResourceAkas := fun w _ =>
    match w with
    | GrantResponse.akas l :: rest => (.ok l, rest)
    | _ => (.error (scriptedFailure w), w.tail)
  ReadGrant := fun w _ =>
    match w with
    | GrantResponse.grant g :: rest => (.ok g, rest)
    | _ => (.error (scriptedFailure w), w.tail)
  DeleteGrant := fun w _ =>
    match w with
    | GrantResponse.done :: rest => (none, rest)
    | _ => (some (scriptedFailure w), w.tail)

/-- A grant library instance: errors are classified by their exact message;
the property map holds the non-empty mapped properties. -/
def demoGrantLib : GrantLib where
  NotFoundError := fun e => e.message == "Not Found"
  mapFromResourceDataWithPropertyMap := fun d _ =>
    ⟨[("permissionTypeAka", d.permission_type),
      ("permissionLevelAka", d.permission_level)].filter (fun kv => !(kv.2 == ""))⟩

/-- The resource data of a grant specification before anything was created. -/
def demoGrantData : GrantResourceData where
  id := ""
  resource := "tmod:@turbot/turbot#/"
  resource_akas := none
  permission_type := "tmod:@turbot/turbot-iam#/permission/types/turbot"
  permission_level := "tmod:@turbot/turbot-iam#/permission/levels/owner"
  profile_id := "1201"

/-- The resource data of an existing grant with identity `1900`. -/
def storedGrantData : GrantResourceData :=
  { demoGrantData with id := "1900", resource := "1002",
                       resource_akas := some ["tmod:@turbot/turbot#/"] }

/-- The metadata the API returns for the grant `1900`. -/
def grantMetadata : TurbotGrantMetadata := ⟨"1900", "1201", "1002"⟩

/-! ## Diff suppression -/

/-- The loop of `supressIfResourceAkaMatches` is list membership. -/
theorem akaLoop_iff_mem (new : String) (l : List String) :
    akaLoop new l = true ↔ new ∈ l := by
  induction l with
  | nil => simp [akaLoop]
  | cons aka rest ih =>
    by_cases h : aka = new
    · simp [akaLoop, h]
    · have h2 : ¬ new = aka := fun e => h e.symm
      simp [akaLoop, h, h2, ih]

/-- C3: `supressIfResourceAkaMatches` returns true exactly when `new` is an
element of the stored `resource_akas` list (the unset list counting as empty),
and its result is the same for every key and every old value. -/
theorem C3_supressIfResourceAkaMatches_iff_mem
    (k old new : String) (d : GrantResourceData) :
    (supressIfResourceAkaMatches k old new d = true ↔ new ∈ d.resource_akas.getD []) ∧
    (∀ k2 old2 : String,
      supressIfResourceAkaMatches k2 old2 new d = supressIfResourceAkaMatches k old new d) := by
  refine ⟨?_, fun _ _ => rfl⟩
  unfold supressIfResourceAkaMatches GetOkList
  cases hd : d.resource_akas with
  | none => simp
  | some l =>
    cases l with
    | nil => simp
    | cons a rest => simp [akaLoop_iff_mem]

/-- C2, as stated, fails: with a non-empty `pgp_key` and an empty old value the
diff on `value` is not suppressed. -/
theorem C2_counterexample_empty_old :
    ({ demoData with pgp_key := "KEY" }).pgp_key ≠ "" ∧
    suppressIfEncryptedOrValueSourceMatches "value" "" "[a, b]"
      { demoData with pgp_key := "KEY" } = false := by
  constructor
  · decide
  · rfl

/-- C2, amended: when a non-empty `pgp_key` is configured and the old value is
not the empty string, `suppressIfEncryptedOrValueSourceMatches` returns true
for every new value, whatever `value_source` and `value_source_used` hold. -/
theorem C2_suppress_when_pgp_key_and_old_set
    (k old new : String) (d : ResourceData)
    (hkey : d.pgp_key ≠ "") (hold : old ≠ "") :
    suppressIfEncryptedOrValueSourceMatches k old new d = true := by
  simp [suppressIfEncryptedOrValueSourceMatches, GetOkString, hkey, hold]

/-- C2, amended, at a concrete input: key `"KEY"`, old `"x"`, new `"y"`. -/
theorem C2_suppress_when_pgp_key_and_old_set_witness :
    suppressIfEncryptedOrValueSourceMatches "value" "x" "y"
      { demoData with pgp_key := "KEY" } = true :=
  C2_suppress_when_pgp_key_and_old_set "value" "x" "y" { demoData with pgp_key := "KEY" }
    (by decide) (by decide)

/-- C10, as stated, fails: an empty old value equals an empty new value
(no `value_source` indirection), yet the diff is not suppressed. -/
theorem C10_counterexample_empty_old :
    (if demoData.value_source_used then demoData.value_source else "") = "" ∧
    suppressIfEncryptedOrValueSourceMatches "value" "" "" demoData = false := by
  constructor
  · rfl
  · rfl

/-- C10, amended: if the old value is not the empty string and the old value
resolved through the `value_source_used` indirection (the stored
`value_source` when `value_source_used` is true, otherwise `old` itself) is
textually equal to `new`, then `suppressIfEncryptedOrValueSourceMatches`
returns true. -/
theorem C10_suppress_when_resolved_old_matches
    (k old new : String) (d : ResourceData)
    (hold : old ≠ "")
    (hmatch : (if d.value_source_used then d.value_source else old) = new) :
    suppressIfEncryptedOrValueSourceMatches k old new d = true := by
  simp [suppressIfEncryptedOrValueSourceMatches, hold, hmatch]

/-- C10, amended, at a concrete input: `value_source_used` is true, the stored
`value_source` is `"[a, b]"`, old is `"[a b]"` and new is `"[a, b]"`. -/
theorem C10_suppress_when_resolved_old_matches_witness :
    suppressIfEncryptedOrValueSourceMatches "value" "[a b]" "[a, b]"
      { demoData with value_source_used := true, value_source := "[a, b]" } = true :=
  C10_suppress_when_resolved_old_matches "value" "[a b]" "[a, b]"
    { demoData with value_source_used := true, value_source := "[a, b]" }
    (by decide) (by rfl)

/-! ## Payload lemmas -/

theorem lookup_filter_ne (k k2 : String) (l : List (String × String)) (h : k ≠ k2) :
    List.lookup k (l.filter (fun kv => kv.1 != k2)) = List.lookup k l := by
  induction l with
  | nil => rfl
  | cons a rest ih =>
    obtain ⟨a1, a2⟩ := a
    by_cases h1 : a1 = k2
    · subst h1
      have hk : (k == a1) = false := by simpa using h
      simp [List.filter, List.lookup, hk, ih]
    · have h2 : (a1 != k2) = true := by simpa using h1
      by_cases h3 : k = a1
      · subst h3
        simp [List.filter, h2, List.lookup]
      · have hk : (k == a1) = false := by simpa using h3
        simp [List.filter, h2, List.lookup, hk, ih]

theorem lookup_filter_self (k : String) (l : List (String × String)) :
    List.lookup k (l.filter (fun kv => kv.1 != k)) = none := by
  induction l with
  | nil => rfl
  | cons a rest ih =>
    obtain ⟨a1, a2⟩ := a
    by_cases h1 : a1 = k
    · subst h1
      simp [List.filter, ih]
    · have h2 : (a1 != k) = true := by simpa using h1
      have hk : (k == a1) = false := by simpa using (fun e : k = a1 => h1 e.symm)
      simp [List.filter, h2, List.lookup, hk, ih]

theorem lookup_filter_none (k : String) (q : String × String → Bool)
    (l : List (String × String)) (h : List.lookup k l = none) :
    List.lookup k (l.filter q) = none := by
  induction l with
  | nil => rfl
  | cons a rest ih =>
    obtain ⟨a1, a2⟩ := a
    by_cases hk : k = a1
    · subst hk
      simp [List.lookup] at h
    · have hk2 : (k == a1) = false := by simpa using hk
      have hrest : List.lookup k rest = none := by simpa [List.lookup, hk2] using h
      by_cases hq : q (a1, a2) = true
      · simp [List.filter, hq, List.lookup, hk2, ih hrest]
      · simp [List.filter, hq, ih hrest]

theorem lookup_filter_head (k v : String) (q : String × String → Bool)
    (rest : List (String × String)) (h : List.lookup k rest = none) :
    List.lookup k (((k, v) :: rest).filter q) = if q (k, v) = true then some v else none := by
  rw [List.filter_cons]
  by_cases hq : q (k, v) = true
  · simp [hq, List.lookup]
  · simp [hq, lookup_filter_none k q rest h]

/-- The first payload carries the raw `value` string under `value` (absent,
hence read as `""`, when the raw string is empty). -/
theorem buildPayload_index_value (d : ResourceData) :
    (buildPayload d).index "value" = d.value := by
  unfold Payload.index Payload.lookup buildPayload
  simp only []
  rw [lookup_filter_head "value" d.value _ _ (by simp [List.lookup])]
  by_cases hv : d.value = ""
  · simp [hv]
  · simp [hv]

/-- The first payload has no `valueSource` key. -/
theorem buildPayload_lookup_valueSource (d : ResourceData) :
    (buildPayload d).lookup "valueSource" = none := by
  unfold Payload.lookup buildPayload
  exact lookup_filter_none "valueSource" _ _ (by simp [List.lookup])

/-- The retry payload has no `value` key. -/
theorem retry_lookup_value (p : Payload) :
    ((p.assign "valueSource" (p.index "value")).delete "value").lookup "value" = none := by
  unfold Payload.lookup Payload.delete
  exact lookup_filter_self "value" _

/-- The retry payload carries under `valueSource` what the first payload
carried under `value`. -/
theorem retry_lookup_valueSource (p : Payload) :
    ((p.assign "valueSource" (p.index "value")).delete "value").lookup "valueSource"
      = some (p.index "value") := by
  unfold Payload.lookup Payload.delete
  rw [lookup_filter_ne "valueSource" "value" _ (by decide)]
  simp [Payload.assign, List.lookup]

/-- The retry payload agrees with the first payload on every other key. -/
theorem retry_lookup_other (p : Payload) (k : String)
    (h1 : k ≠ "value") (h2 : k ≠ "valueSource") :
    ((p.assign "valueSource" (p.index "value")).delete "value").lookup k = p.lookup k := by
  unfold Payload.lookup Payload.delete
  rw [lookup_filter_ne k "value" _ h1]
  have hk : (k == "valueSource") = false := by simpa using h2
  simp only [Payload.assign, List.lookup, hk, Payload.delete]
  exact lookup_filter_ne k "valueSource" _ h2

theorem retry_index_valueSource (p : Payload) :
    ((p.assign "valueSource" (p.index "value")).delete "value").index "valueSource"
      = p.index "value" := by
  have h := retry_lookup_valueSource p
  simp only [Payload.index] at h ⊢
  rw [h]
  rfl

/-! ## The paths through `resourceTurbotPolicySettingCreate` -/

section CreatePaths

variable {σ V : Type} (lib : Lib V) (client : Client σ V) (w : σ) (d : ResourceData)

theorem create_find_error (err : GoError) (w1 : σ)
    (hfind : client.FindPolicySetting w d.policy_type d.resource = (.error err, w1)) :
    resourceTurbotPolicySettingCreate lib client w d =
      ⟨some err, d, w1, [.FindPolicySetting d.policy_type d.resource]⟩ := by
  simp [resourceTurbotPolicySettingCreate, hfind]

theorem create_already_exists (existing : PolicySetting V) (w1 : σ)
    (hfind : client.FindPolicySetting w d.policy_type d.resource = (.ok existing, w1))
    (hval : existing.Value ≠ none) :
    resourceTurbotPolicySettingCreate lib client w d =
      ⟨some (alreadyExistsError d.policy_type d.resource existing.Turbot.Id), d, w1,
        [.FindPolicySetting d.policy_type d.resource]⟩ := by
  have h : existing.Value.isSome = true := by
    cases hv : existing.Value with
    | none => exact absurd hv hval
    | some x => rfl
  simp [resourceTurbotPolicySettingCreate, hfind, h]

theorem create_first_ok (existing : PolicySetting V) (w1 : σ)
    (hfind : client.FindPolicySetting w d.policy_type d.resource = (.ok existing, w1))
    (hval : existing.Value = none) (setting : PolicySetting V) (w2 : σ)
    (hfirst : client.CreatePolicySetting w1 d.policy_type d.resource (buildPayload d)
      = (.ok setting, w2)) :
    resourceTurbotPolicySettingCreate lib client w d =
      ⟨none, ((storeValue lib d setting).1).SetId setting.Turbot.Id, w2,
        [.FindPolicySetting d.policy_type d.resource,
         .CreatePolicySetting d.policy_type d.resource (buildPayload d)]⟩ := by
  simp [resourceTurbotPolicySettingCreate, hfind, hval, hfirst]

theorem create_first_other_error (existing : PolicySetting V) (w1 : σ)
    (hfind : client.FindPolicySetting w d.policy_type d.resource = (.ok existing, w1))
    (hval : existing.Value = none) (err : GoError) (w2 : σ)
    (hfirst : client.CreatePolicySetting w1 d.policy_type d.resource (buildPayload d)
      = (.error err, w2))
    (hfv : lib.FailedValidationError err = false) :
    resourceTurbotPolicySettingCreate lib client w d =
      ⟨some err, d.SetId "", w2,
        [.FindPolicySetting d.policy_type d.resource,
         .CreatePolicySetting d.policy_type d.resource (buildPayload d)]⟩ := by
  simp [resourceTurbotPolicySettingCreate, hfind, hval, hfirst, hfv]

theorem create_retry_error (existing : PolicySetting V) (w1 : σ)
    (hfind : client.FindPolicySetting w d.policy_type d.resource = (.ok existing, w1))
    (hval : existing.Value = none) (err1 : GoError) (w2 : σ)
    (hfirst : client.CreatePolicySetting w1 d.policy_type d.resource (buildPayload d)
      = (.error err1, w2))
    (hfv : lib.FailedValidationError err1 = true) (err2 : GoError) (w3 : σ)
    (hretry : client.CreatePolicySetting w2 d.policy_type d.resource
      (((buildPayload d).assign "valueSource" ((buildPayload d).index "value")).delete "value")
      = (.error err2, w3)) :
    resourceTurbotPolicySettingCreate lib client w d =
      ⟨some err2, d.SetId "", w3,
        [.FindPolicySetting d.policy_type d.resource,
         .CreatePolicySetting d.policy_type d.resource (buildPayload d),
         .CreatePolicySetting d.policy_type d.resource
           (((buildPayload d).assign "valueSource"
             ((buildPayload d).index "value")).delete "value")]⟩ := by
  simp [resourceTurbotPolicySettingCreate, hfind, hval, hfirst, hfv, hretry]

theorem create_retry_ok (existing : PolicySetting V) (w1 : σ)
    (hfind : client.FindPolicySetting w d.policy_type d.resource = (.ok existing, w1))
    (hval : existing.Value = none) (err1 : GoError) (w2 : σ)
    (hfirst : client.CreatePolicySetting w1 d.policy_type d.resource (buildPayload d)
      = (.error err1, w2))
    (hfv : lib.FailedValidationError err1 = true) (setting : PolicySetting V) (w3 : σ)
    (hretry : client.CreatePolicySetting w2 d.policy_type d.resource
      (((buildPayload d).assign "valueSource" ((buildPayload d).index "value")).delete "value")
      = (.ok setting, w3)) :
    resourceTurbotPolicySettingCreate lib client w d =
      ⟨none,
        ((storeValue lib (setValueFromValueSource lib d.value d) setting).1).SetId
          setting.Turbot.Id,
        w3,
        [.FindPolicySetting d.policy_type d.resource,
         .CreatePolicySetting d.policy_type d.resource (buildPayload d),
         .CreatePolicySetting d.policy_type d.resource
           (((buildPayload d).assign "valueSource"
             ((buildPayload d).index "value")).delete "value")]⟩ := by
  simp [resourceTurbotPolicySettingCreate, hfind, hval, hfirst, hfv, hretry]
  rw [retry_index_valueSource, buildPayload_index_value]

end CreatePaths

/-! ## The paths through `resourceTurbotPolicySettingUpdate` -/

section UpdatePaths

variable {σ V : Type} (lib : Lib V) (client : Client σ V) (w : σ) (d : ResourceData)

theorem update_first_ok (w1 : σ)
    (hfirst : client.UpdatePolicySetting w d.id (buildPayload d) = (none, w1)) :
    resourceTurbotPolicySettingUpdate lib client w d =
      ⟨none, d, w1, [.UpdatePolicySetting d.id (buildPayload d)]⟩ := by
  simp [resourceTurbotPolicySettingUpdate, hfirst]

theorem update_first_other_error (err : GoError) (w1 : σ)
    (hfirst : client.UpdatePolicySetting w d.id (buildPayload d) = (some err, w1))
    (hfv : lib.FailedValidationError err = false) :
    resourceTurbotPolicySettingUpdate lib client w d =
      ⟨some err, d.SetId "", w1, [.UpdatePolicySetting d.id (buildPayload d)]⟩ := by
  simp [resourceTurbotPolicySettingUpdate, hfirst, hfv]

theorem update_retry_error (err1 : GoError) (w1 : σ)
    (hfirst : client.UpdatePolicySetting w d.id (buildPayload d) = (some err1, w1))
    (hfv : lib.FailedValidationError err1 = true) (err2 : GoError) (w2 : σ)
    (hretry : client.UpdatePolicySetting w1 d.id
      (((buildPayload d).assign "valueSource" ((buildPayload d).index "value")).delete "value")
      = (some err2, w2)) :
    resourceTurbotPolicySettingUpdate lib client w d =
      ⟨some err2, d.SetId "", w2,
        [.UpdatePolicySetting d.id (buildPayload d),
         .UpdatePolicySetting d.id
           (((buildPayload d).assign "valueSource"
             ((buildPayload d).index "value")).delete "value")]⟩ := by
  simp [resourceTurbotPolicySettingUpdate, hfirst, hfv, hretry]

theorem update_retry_ok (err1 : GoError) (w1 : σ)
    (hfirst : client.UpdatePolicySetting w d.id (buildPayload d) = (some err1, w1))
    (hfv : lib.FailedValidationError err1 = true) (w2 : σ)
    (hretry : client.UpdatePolicySetting w1 d.id
      (((buildPayload d).assign "valueSource" ((buildPayload d).index "value")).delete "value")
      = (none, w2)) :
    resourceTurbotPolicySettingUpdate lib client w d =
      ⟨none, setValueFromValueSource lib d.value d, w2,
        [.UpdatePolicySetting d.id (buildPayload d),
         .UpdatePolicySetting d.id
           (((buildPayload d).assign "valueSource"
             ((buildPayload d).index "value")).delete "value")]⟩ := by
  simp [resourceTurbotPolicySettingUpdate, hfirst, hfv, hretry]
  rw [retry_index_valueSource, buildPayload_index_value]

end UpdatePaths

/-! ## What `storeValue` writes -/

section StoreValue

variable {V : Type} (lib : Lib V) (d : ResourceData) (setting : PolicySetting V)

theorem storeValue_no_key (hkey : d.pgp_key = "") :
    storeValue lib d setting =
      ({ d with value := settingValueToString lib setting.Value,
                value_source := setting.ValueSource }, none) := by
  simp [storeValue, GetOkString, hkey]

theorem storeValue_key_ok (hkey : d.pgp_key ≠ "") (fp1 ct1 fp2 ct2 : String)
    (h1 : lib.encryptValue d.pgp_key (settingValueToString lib setting.Value)
      = .ok (fp1, ct1))
    (h2 : lib.encryptValue d.pgp_key setting.ValueSource = .ok (fp2, ct2)) :
    storeValue lib d setting =
      ({ d with value := ct1, value_key_fingerprint := fp1,
                value_source := ct2, value_source_key_fingerprint := fp2 }, none) := by
  have hb : (d.pgp_key != "") = true := by simpa using hkey
  simp only [storeValue, GetOkString, hb, h1, h2]

theorem storeValue_value_encrypted (hkey : d.pgp_key ≠ "") (fp1 ct1 : String)
    (h1 : lib.encryptValue d.pgp_key (settingValueToString lib setting.Value)
      = .ok (fp1, ct1)) :
    (storeValue lib d setting).1.value = ct1 := by
  have hb : (d.pgp_key != "") = true := by simpa using hkey
  cases h2 : lib.encryptValue d.pgp_key setting.ValueSource with
  | error e => simp only [storeValue, GetOkString, hb, h1, h2]
  | ok r => simp only [storeValue, GetOkString, hb, h1, h2]

theorem storeValue_key_error (hkey : d.pgp_key ≠ "") (err : GoError)
    (h1 : lib.encryptValue d.pgp_key (settingValueToString lib setting.Value)
      = .error err) :
    storeValue lib d setting = (d, some err) := by
  have hb : (d.pgp_key != "") = true := by simpa using hkey
  simp only [storeValue, GetOkString, hb, h1]

theorem storeValue_value_source_used :
    (storeValue lib d setting).1.value_source_used = d.value_source_used := by
  by_cases hkey : d.pgp_key = ""
  · rw [storeValue_no_key lib d setting hkey]
  · have hb : (d.pgp_key != "") = true := by simpa using hkey
    cases h1 : lib.encryptValue d.pgp_key (settingValueToString lib setting.Value) with
    | error e => simp only [storeValue, GetOkString, hb, h1]
    | ok r1 =>
      cases h2 : lib.encryptValue d.pgp_key setting.ValueSource with
      | error e => simp only [storeValue, GetOkString, hb, h1, h2]
      | ok r2 => simp only [storeValue, GetOkString, hb, h1, h2]

end StoreValue

/-! ## Policy-setting Create -/

/-- C1, as stated, fails. With `pgp_key = "KEY"` and raw value `[a, b]`, the
first call fails validation, the retry succeeds and Create returns no error,
but the stored `value` is the ciphertext `ENC([a b])` written by `storeValue`,
not `[a b]`, the string form of the YAML-decoded raw value. With no `pgp_key`
and raw value `1000000`, the stored `value` is `1e+06`, the string form of the
value returned by the retry, not `1000000`. -/
theorem C1_counterexample_pgp_key :
    scriptedClient.CreatePolicySetting [.error validationError, .ok listSetting]
        demoData.policy_type demoData.resource
        (buildPayload { demoData with pgp_key := "KEY" })
      = (.error validationError, [.ok listSetting]) ∧
    demoLib.FailedValidationError validationError = true ∧
    (resourceTurbotPolicySettingCreate demoLib scriptedClient
      [.ok noSetting, .error validationError, .ok listSetting]
      { demoData with pgp_key := "KEY" }).ret = none ∧
    (resourceTurbotPolicySettingCreate demoLib scriptedClient
      [.ok noSetting, .error validationError, .ok listSetting]
      { demoData with pgp_key := "KEY" }).d.value = "ENC([a b])" ∧
    Sprintf_v_iface demoLib (demoLib.yamlUnmarshal "[a, b]") = "[a b]" ∧
    (resourceTurbotPolicySettingCreate demoLib scriptedClient
      [.ok noSetting, .error validationError, .ok listSetting]
      { demoData with pgp_key := "KEY" }).d.value
      ≠ Sprintf_v_iface demoLib (demoLib.yamlUnmarshal "[a, b]") ∧
    (resourceTurbotPolicySettingCreate demoLib scriptedClient
      [.ok noSetting, .error validationError, .ok millionSetting]
      { demoData with value := "1000000" }).ret = none ∧
    (resourceTurbotPolicySettingCreate demoLib scriptedClient
      [.ok noSetting, .error validationError, .ok millionSetting]
      { demoData with value := "1000000" }).d.value = "1e+06" ∧
    Sprintf_v_iface demoLib (demoLib.yamlUnmarshal "1000000") = "1000000" := by
  refine ⟨rfl, rfl, rfl, ?_, ?_, ?_, rfl, ?_, ?_⟩
  · decide
  · decide
  · decide
  · decide
  · decide

/-- C1, amended: when the duplicate check passes, the first
`CreatePolicySetting` call (raw value sent as `value`) fails with a
FailedValidation error and the retry (raw value sent as `valueSource`)
succeeds, Create returns no error, the stored `value_source_used` is true, and
the stored `value` is what `storeValue` writes for the setting returned by the
retry: with no `pgp_key`, the string form of the returned `Value`; with a
`pgp_key` under which encrypting that string succeeds, its ciphertext. -/
theorem C1_create_fallback_stores_returned_value
    {σ V : Type} (lib : Lib V) (client : Client σ V) (w : σ) (d : ResourceData)
    (existing : PolicySetting V) (w1 : σ)
    (hfind : client.FindPolicySetting w d.policy_type d.resource = (.ok existing, w1))
    (hval : existing.Value = none) (err1 : GoError) (w2 : σ)
    (hfirst : client.CreatePolicySetting w1 d.policy_type d.resource (buildPayload d)
      = (.error err1, w2))
    (hfv : lib.FailedValidationError err1 = true) (setting : PolicySetting V) (w3 : σ)
    (hretry : client.CreatePolicySetting w2 d.policy_type d.resource
      (((buildPayload d).assign "valueSource" ((buildPayload d).index "value")).delete "value")
      = (.ok setting, w3)) :
    (resourceTurbotPolicySettingCreate lib client w d).ret = none ∧
    (resourceTurbotPolicySettingCreate lib client w d).d.value_source_used = true ∧
    (d.pgp_key = "" →
      (resourceTurbotPolicySettingCreate lib client w d).d.value
        = settingValueToString lib setting.Value) ∧
    (∀ fp ct : String, d.pgp_key ≠ "" →
      lib.encryptValue d.pgp_key (settingValueToString lib setting.Value) = .ok (fp, ct) →
      (resourceTurbotPolicySettingCreate lib client w d).d.value = ct) := by
  rw [create_retry_ok lib client w d existing w1 hfind hval err1 w2 hfirst hfv setting w3 hretry]
  refine ⟨rfl, ?_, ?_, ?_⟩
  · show (storeValue lib (setValueFromValueSource lib d.value d) setting).1.value_source_used
      = true
    rw [storeValue_value_source_used]
    rfl
  · intro hkey
    show (storeValue lib (setValueFromValueSource lib d.value d) setting).1.value = _
    rw [storeValue_no_key lib _ setting (by exact hkey)]
  · intro fp ct hkey henc
    show (storeValue lib (setValueFromValueSource lib d.value d) setting).1.value = _
    exact storeValue_value_encrypted lib _ setting (by exact hkey) fp ct henc

/-- C1, amended, at a concrete input: raw value `[a, b]`, no `pgp_key`; the
retry returns the list `[a, b]` and the stored `value` is `[a b]`. -/
theorem C1_create_fallback_stores_returned_value_witness :
    (resourceTurbotPolicySettingCreate demoLib scriptedClient
      [.ok noSetting, .error validationError, .ok listSetting] demoData).d.value_source_used
      = true ∧
    (resourceTurbotPolicySettingCreate demoLib scriptedClient
      [.ok noSetting, .error validationError, .ok listSetting] demoData).d.value
      = settingValueToString demoLib listSetting.Value :=
  have h := C1_create_fallback_stores_returned_value demoLib scriptedClient
    [.ok noSetting, .error validationError, .ok listSetting] demoData
    noSetting [.error validationError, .ok listSetting] rfl rfl
    validationError [.ok listSetting] rfl rfl listSetting [] rfl
  ⟨h.2.1, h.2.2.1 rfl⟩

/-- C4: in a policy-setting Create whose duplicate check passes, if the first
`CreatePolicySetting` call fails with an error that is not a FailedValidation
error, or it fails with FailedValidation and the retry fails with any error,
then Create returns exactly that last error and the stored id is the empty
string on return. -/
theorem C4_create_failure_clears_id
    {σ V : Type} (lib : Lib V) (client : Client σ V) (w : σ) (d : ResourceData)
    (existing : PolicySetting V) (w1 : σ)
    (hfind : client.FindPolicySetting w d.policy_type d.resource = (.ok existing, w1))
    (hval : existing.Value = none) :
    (∀ (err : GoError) (w2 : σ),
      client.CreatePolicySetting w1 d.policy_type d.resource (buildPayload d)
        = (.error err, w2) →
      lib.FailedValidationError err = false →
      (resourceTurbotPolicySettingCreate lib client w d).ret = some err ∧
      (resourceTurbotPolicySettingCreate lib client w d).d.id = "") ∧
    (∀ (err1 : GoError) (w2 : σ) (err2 : GoError) (w3 : σ),
      client.CreatePolicySetting w1 d.policy_type d.resource (buildPayload d)
        = (.error err1, w2) →
      lib.FailedValidationError err1 = true →
      client.CreatePolicySetting w2 d.policy_type d.resource
        (((buildPayload d).assign "valueSource" ((buildPayload d).index "value")).delete
          "value") = (.error err2, w3) →
      (resourceTurbotPolicySettingCreate lib client w d).ret = some err2 ∧
      (resourceTurbotPolicySettingCreate lib client w d).d.id = "") := by
  constructor
  · intro err w2 hfirst hfv
    rw [create_first_other_error lib client w d existing w1 hfind hval err w2 hfirst hfv]
    exact ⟨rfl, rfl⟩
  · intro err1 w2 err2 w3 hfirst hfv hretry
    rw [create_retry_error lib client w d existing w1 hfind hval err1 w2 hfirst hfv
      err2 w3 hretry]
    exact ⟨rfl, rfl⟩

/-- C4 at two concrete inputs, both starting from the stored id `1706`: a
server error on the first call, and a validation error followed by a server
error on the retry. -/
theorem C4_create_failure_clears_id_witness :
    ((resourceTurbotPolicySettingCreate demoLib scriptedClient
        [.ok noSetting, .error serverError] storedData).ret = some serverError ∧
      (resourceTurbotPolicySettingCreate demoLib scriptedClient
        [.ok noSetting, .error serverError] storedData).d.id = "") ∧
    ((resourceTurbotPolicySettingCreate demoLib scriptedClient
        [.ok noSetting, .error validationError, .error serverError] storedData).ret
        = some serverError ∧
      (resourceTurbotPolicySettingCreate demoLib scriptedClient
        [.ok noSetting, .error validationError, .error serverError] storedData).d.id = "") :=
  ⟨(C4_create_failure_clears_id demoLib scriptedClient
      [.ok noSetting, .error serverError] storedData noSetting [.error serverError]
      rfl rfl).1 serverError [] rfl rfl,
   (C4_create_failure_clears_id demoLib scriptedClient
      [.ok noSetting, .error validationError, .error serverError] storedData noSetting
      [.error validationError, .error serverError] rfl rfl).2
      validationError [.error serverError] serverError [] rfl rfl rfl⟩

/-! ## Policy-setting Update -/

/-- C5: in a policy-setting Update, if the first `UpdatePolicySetting` call
fails with a non-FailedValidation error, or it fails with FailedValidation and
the retry fails, Update returns that error and the stored id is empty; if the
first call succeeds, Update returns no error and leaves the stored id and
every stored field unchanged. -/
theorem C5_update_failure_clears_id_success_keeps_state
    {σ V : Type} (lib : Lib V) (client : Client σ V) (w : σ) (d : ResourceData) :
    (∀ (err : GoError) (w1 : σ),
      client.UpdatePolicySetting w d.id (buildPayload d) = (some err, w1) →
      lib.FailedValidationError err = false →
      (resourceTurbotPolicySettingUpdate lib client w d).ret = some err ∧
      (resourceTurbotPolicySettingUpdate lib client w d).d.id = "") ∧
    (∀ (err1 : GoError) (w1 : σ) (err2 : GoError) (w2 : σ),
      client.UpdatePolicySetting w d.id (buildPayload d) = (some err1, w1) →
      lib.FailedValidationError err1 = true →
      client.UpdatePolicySetting w1 d.id
        (((buildPayload d).assign "valueSource" ((buildPayload d).index "value")).delete
          "value") = (some err2, w2) →
      (resourceTurbotPolicySettingUpdate lib client w d).ret = some err2 ∧
      (resourceTurbotPolicySettingUpdate lib client w d).d.id = "") ∧
    (∀ (w1 : σ),
      client.UpdatePolicySetting w d.id (buildPayload d) = (none, w1) →
      (resourceTurbotPolicySettingUpdate lib client w d).ret = none ∧
      (resourceTurbotPolicySettingUpdate lib client w d).d = d) := by
  refine ⟨?_, ?_, ?_⟩
  · intro err w1 hfirst hfv
    rw [update_first_other_error lib client w d err w1 hfirst hfv]
    exact ⟨rfl, rfl⟩
  · intro err1 w1 err2 w2 hfirst hfv hretry
    rw [update_retry_error lib client w d err1 w1 hfirst hfv err2 w2 hretry]
    exact ⟨rfl, rfl⟩
  · intro w1 hfirst
    rw [update_first_ok lib client w d w1 hfirst]
    exact ⟨rfl, rfl⟩

/-- C5 at three concrete inputs on the stored id `1706`: a server error, a
validation error followed by a server error, and a first call that succeeds. -/
theorem C5_update_failure_clears_id_success_keeps_state_witness :
    ((resourceTurbotPolicySettingUpdate demoLib scriptedClient
        [.error serverError] storedData).ret = some serverError ∧
      (resourceTurbotPolicySettingUpdate demoLib scriptedClient
        [.error serverError] storedData).d.id = "") ∧
    ((resourceTurbotPolicySettingUpdate demoLib scriptedClient
        [.error validationError, .error serverError] storedData).ret = some serverError ∧
      (resourceTurbotPolicySettingUpdate demoLib scriptedClient
        [.error validationError, .error serverError] storedData).d.id = "") ∧
    ((resourceTurbotPolicySettingUpdate demoLib scriptedClient
        [.ok listSetting] storedData).ret = none ∧
      (resourceTurbotPolicySettingUpdate demoLib scriptedClient
        [.ok listSetting] storedData).d = storedData) :=
  ⟨(C5_update_failure_clears_id_success_keeps_state demoLib scriptedClient
      [.error serverError] storedData).1 serverError [] rfl rfl,
   (C5_update_failure_clears_id_success_keeps_state demoLib scriptedClient
      [.error validationError, .error serverError] storedData).2.1
      validationError [.error serverError] serverError [] rfl rfl rfl,
   (C5_update_failure_clears_id_success_keeps_state demoLib scriptedClient
      [.ok listSetting] storedData).2.2 [] rfl⟩

/-! ## Duplicate check -/

/-- C6: if `FindPolicySetting` returns a setting whose `Value` is non-nil,
Create returns the `already exists` error, whose text, given here in full,
names the policy type, the resource and the id of the existing setting and
tells to import it; Create issues only the find call (no write call) and
leaves the resource data unchanged; if `FindPolicySetting` fails, that error is
returned, again with no write call and the resource data unchanged. -/
theorem C6_create_duplicate_check
    {σ V : Type} (lib : Lib V) (client : Client σ V) (w : σ) (d : ResourceData) :
    (∀ (existing : PolicySetting V) (w1 : σ),
      client.FindPolicySetting w d.policy_type d.resource = (.ok existing, w1) →
      existing.Value ≠ none →
      (resourceTurbotPolicySettingCreate lib client w d).ret
        = some ⟨"A policy setting for policy type: \x27" ++ d.policy_type
            ++ "\x27, resource: \x27" ++ d.resource
            ++ "\x27 already exists ( id: " ++ existing.Turbot.Id
            ++ " ). To manage the existing setting using Terraform, "
            ++ "import it using command \x27terraform import <resource_address> <id>\x27"⟩ ∧
      (resourceTurbotPolicySettingCreate lib client w d).calls
        = [.FindPolicySetting d.policy_type d.resource] ∧
      writePayloads (resourceTurbotPolicySettingCreate lib client w d).calls = [] ∧
      (resourceTurbotPolicySettingCreate lib client w d).d = d) ∧
    (∀ (err : GoError) (w1 : σ),
      client.FindPolicySetting w d.policy_type d.resource = (.error err, w1) →
      (resourceTurbotPolicySettingCreate lib client w d).ret = some err ∧
      (resourceTurbotPolicySettingCreate lib client w d).calls
        = [.FindPolicySetting d.policy_type d.resource] ∧
      writePayloads (resourceTurbotPolicySettingCreate lib client w d).calls = [] ∧
      (resourceTurbotPolicySettingCreate lib client w d).d = d) := by
  constructor
  · intro existing w1 hfind hval
    rw [create_already_exists lib client w d existing w1 hfind hval]
    exact ⟨rfl, rfl, rfl, rfl⟩
  · intro err w1 hfind
    rw [create_find_error lib client w d err w1 hfind]
    exact ⟨rfl, rfl, rfl, rfl⟩

/-- C6 at two concrete inputs: a find that returns the existing setting `1706`,
with the full text of the error, and a find that fails. -/
theorem C6_create_duplicate_check_witness :
    (resourceTurbotPolicySettingCreate demoLib scriptedClient
        [.ok listSetting] demoData).ret
      = some ⟨"A policy setting for policy type: \x27tmod:@turbot/aws#/policy/types/tags\x27, resource: \x27tmod:@turbot/turbot#/\x27 already exists ( id: 1706 ). To manage the existing setting using Terraform, import it using command \x27terraform import <resource_address> <id>\x27"⟩ ∧
    (resourceTurbotPolicySettingCreate demoLib scriptedClient
        [.ok listSetting] demoData).d = demoData ∧
    (resourceTurbotPolicySettingCreate demoLib scriptedClient
        [.error serverError] demoData).ret = some serverError :=
  ⟨((C6_create_duplicate_check demoLib scriptedClient [.ok listSetting] demoData).1
      listSetting [] rfl (by decide)).1.trans rfl,
   ((C6_create_duplicate_check demoLib scriptedClient [.ok listSetting] demoData).1
      listSetting [] rfl (by decide)).2.2.2,
   ((C6_create_duplicate_check demoLib scriptedClient [.error serverError] demoData).2
      serverError [] rfl).1⟩

/-! ## The single `valueSource` retry -/

section WriteCalls

variable {σ V : Type} (lib : Lib V) (client : Client σ V) (w : σ) (d : ResourceData)

/-- Create issues at most two write calls. -/
theorem create_writePayloads_length :
    (writePayloads (resourceTurbotPolicySettingCreate lib client w d).calls).length ≤ 2 := by
  rcases hfind : client.FindPolicySetting w d.policy_type d.resource with ⟨res, w1⟩
  cases res with
  | error e =>
    rw [create_find_error lib client w d e w1 hfind]
    simp [writePayloads]
  | ok existing =>
    cases hv : existing.Value with
    | some x =>
      rw [create_already_exists lib client w d existing w1 hfind (by simp [hv])]
      simp [writePayloads]
    | none =>
      rcases hfirst : client.CreatePolicySetting w1 d.policy_type d.resource
        (buildPayload d) with ⟨res1, w2⟩
      cases res1 with
      | ok setting =>
        rw [create_first_ok lib client w d existing w1 hfind hv setting w2 hfirst]
        simp [writePayloads]
      | error err1 =>
        cases hfv : lib.FailedValidationError err1 with
        | false =>
          rw [create_first_other_error lib client w d existing w1 hfind hv err1 w2 hfirst hfv]
          simp [writePayloads]
        | true =>
          rcases hretry : client.CreatePolicySetting w2 d.policy_type d.resource
            (((buildPayload d).assign "valueSource"
              ((buildPayload d).index "value")).delete "value") with ⟨res2, w3⟩
          cases res2 with
          | error err2 =>
            rw [create_retry_error lib client w d existing w1 hfind hv err1 w2 hfirst hfv
              err2 w3 hretry]
            simp [writePayloads]
          | ok setting =>
            rw [create_retry_ok lib client w d existing w1 hfind hv err1 w2 hfirst hfv
              setting w3 hretry]
            simp [writePayloads]

/-- Update issues at most two write calls. -/
theorem update_writePayloads_length :
    (writePayloads (resourceTurbotPolicySettingUpdate lib client w d).calls).length ≤ 2 := by
  rcases hfirst : client.UpdatePolicySetting w d.id (buildPayload d) with ⟨res1, w1⟩
  cases res1 with
  | none =>
    rw [update_first_ok lib client w d w1 hfirst]
    simp [writePayloads]
  | some err1 =>
    cases hfv : lib.FailedValidationError err1 with
    | false =>
      rw [update_first_other_error lib client w d err1 w1 hfirst hfv]
      simp [writePayloads]
    | true =>
      rcases hretry : client.UpdatePolicySetting w1 d.id
        (((buildPayload d).assign "valueSource"
          ((buildPayload d).index "value")).delete "value") with ⟨res2, w2⟩
      cases res2 with
      | some err2 =>
        rw [update_retry_error lib client w d err1 w1 hfirst hfv err2 w2 hretry]
        simp [writePayloads]
      | none =>
        rw [update_retry_ok lib client w d err1 w1 hfirst hfv w2 hretry]
        simp [writePayloads]

/-- After a validation failure, Create issues exactly one more write call,
with the retry payload. -/
theorem create_writePayloads_retry (existing : PolicySetting V) (w1 : σ)
    (hfind : client.FindPolicySetting w d.policy_type d.resource = (.ok existing, w1))
    (hval : existing.Value = none) (err1 : GoError) (w2 : σ)
    (hfirst : client.CreatePolicySetting w1 d.policy_type d.resource (buildPayload d)
      = (.error err1, w2))
    (hfv : lib.FailedValidationError err1 = true) :
    writePayloads (resourceTurbotPolicySettingCreate lib client w d).calls =
      [buildPayload d,
       ((buildPayload d).assign "valueSource" ((buildPayload d).index "value")).delete
         "value"] := by
  rcases hretry : client.CreatePolicySetting w2 d.policy_type d.resource
    (((buildPayload d).assign "valueSource"
      ((buildPayload d).index "value")).delete "value") with ⟨res2, w3⟩
  cases res2 with
  | error err2 =>
    rw [create_retry_error lib client w d existing w1 hfind hval err1 w2 hfirst hfv
      err2 w3 hretry]
    rfl
  | ok setting =>
    rw [create_retry_ok lib client w d existing w1 hfind hval err1 w2 hfirst hfv
      setting w3 hretry]
    rfl

/-- After a validation failure, Update issues exactly one more write call,
with the retry payload. -/
theorem update_writePayloads_retry (err1 : GoError) (w1 : σ)
    (hfirst : client.UpdatePolicySetting w d.id (buildPayload d) = (some err1, w1))
    (hfv : lib.FailedValidationError err1 = true) :
    writePayloads (resourceTurbotPolicySettingUpdate lib client w d).calls =
      [buildPayload d,
       ((buildPayload d).assign "valueSource" ((buildPayload d).index "value")).delete
         "value"] := by
  rcases hretry : client.UpdatePolicySetting w1 d.id
    (((buildPayload d).assign "valueSource"
      ((buildPayload d).index "value")).delete "value") with ⟨res2, w2⟩
  cases res2 with
  | some err2 =>
    rw [update_retry_error lib client w d err1 w1 hfirst hfv err2 w2 hretry]
    rfl
  | none =>
    rw [update_retry_ok lib client w d err1 w1 hfirst hfv w2 hretry]
    rfl

/-- The retry payload, described key by key against the first payload. -/
theorem retry_payload_shape :
    (((buildPayload d).assign "valueSource" ((buildPayload d).index "value")).delete
      "value").lookup "value" = none ∧
    (((buildPayload d).assign "valueSource" ((buildPayload d).index "value")).delete
      "value").lookup "valueSource" = some d.value ∧
    ∀ k : String, k ≠ "value" → k ≠ "valueSource" →
      (((buildPayload d).assign "valueSource" ((buildPayload d).index "value")).delete
        "value").lookup k = (buildPayload d).lookup k := by
  refine ⟨retry_lookup_value _, ?_, fun k h1 h2 => retry_lookup_other _ k h1 h2⟩
  rw [retry_lookup_valueSource, buildPayload_index_value]

end WriteCalls

/-- C7: the first write payload of Create and Update never has a
`valueSource` key. When the first attempt fails with FailedValidation, exactly
one retry is issued; its payload has no `value` key, has `valueSource` equal to
the raw `value` string of the specification, and agrees with the first payload
on every other key. When the first attempt succeeds or fails with another
error, the first call is the only write call. In every case at most two write
calls are issued. -/
theorem C7_single_retry_moves_value_to_valueSource
    {σ V : Type} (lib : Lib V) (client : Client σ V) (w : σ) (d : ResourceData) :
    (buildPayload d).lookup "valueSource" = none ∧
    (∀ (existing : PolicySetting V) (w1 : σ),
      client.FindPolicySetting w d.policy_type d.resource = (.ok existing, w1) →
      existing.Value = none →
      (∀ (err1 : GoError) (w2 : σ),
        client.CreatePolicySetting w1 d.policy_type d.resource (buildPayload d)
          = (.error err1, w2) →
        lib.FailedValidationError err1 = true →
        ∃ p2 : Payload,
          writePayloads (resourceTurbotPolicySettingCreate lib client w d).calls
            = [buildPayload d, p2] ∧
          p2.lookup "value" = none ∧ p2.lookup "valueSource" = some d.value ∧
          ∀ k : String, k ≠ "value" → k ≠ "valueSource" →
            p2.lookup k = (buildPayload d).lookup k) ∧
      (∀ (err1 : GoError) (w2 : σ),
        client.CreatePolicySetting w1 d.policy_type d.resource (buildPayload d)
          = (.error err1, w2) →
        lib.FailedValidationError err1 = false →
        writePayloads (resourceTurbotPolicySettingCreate lib client w d).calls
          = [buildPayload d]) ∧
      (∀ (setting : PolicySetting V) (w2 : σ),
        client.CreatePolicySetting w1 d.policy_type d.resource (buildPayload d)
          = (.ok setting, w2) →
        writePayloads (resourceTurbotPolicySettingCreate lib client w d).calls
          = [buildPayload d])) ∧
    (∀ (err1 : GoError) (w1 : σ),
      client.UpdatePolicySetting w d.id (buildPayload d) = (some err1, w1) →
      lib.FailedValidationError err1 = true →
      ∃ p2 : Payload,
        writePayloads (resourceTurbotPolicySettingUpdate lib client w d).calls
          = [buildPayload d, p2] ∧
        p2.lookup "value" = none ∧ p2.lookup "valueSource" = some d.value ∧
        ∀ k : String, k ≠ "value" → k ≠ "valueSource" →
          p2.lookup k = (buildPayload d).lookup k) ∧
    (∀ (err1 : GoError) (w1 : σ),
      client.UpdatePolicySetting w d.id (buildPayload d) = (some err1, w1) →
      lib.FailedValidationError err1 = false →
      writePayloads (resourceTurbotPolicySettingUpdate lib client w d).calls
        = [buildPayload d]) ∧
    (∀ (w1 : σ),
      client.UpdatePolicySetting w d.id (buildPayload d) = (none, w1) →
      writePayloads (resourceTurbotPolicySettingUpdate lib client w d).calls
        = [buildPayload d]) ∧
    (writePayloads (resourceTurbotPolicySettingCreate lib client w d).calls).length ≤ 2 ∧
    (writePayloads (resourceTurbotPolicySettingUpdate lib client w d).calls).length ≤ 2 := by
  refine ⟨buildPayload_lookup_valueSource d, ?_, ?_, ?_, ?_,
    create_writePayloads_length lib client w d, update_writePayloads_length lib client w d⟩
  · intro existing w1 hfind hval
    refine ⟨?_, ?_, ?_⟩
    · intro err1 w2 hfirst hfv
      exact ⟨_, create_writePayloads_retry lib client w d existing w1 hfind hval err1 w2
        hfirst hfv, retry_payload_shape d⟩
    · intro err1 w2 hfirst hfv
      rw [create_first_other_error lib client w d existing w1 hfind hval err1 w2 hfirst hfv]
      rfl
    · intro setting w2 hfirst
      rw [create_first_ok lib client w d existing w1 hfind hval setting w2 hfirst]
      rfl
  · intro err1 w1 hfirst hfv
    exact ⟨_, update_writePayloads_retry lib client w d err1 w1 hfirst hfv,
      retry_payload_shape d⟩
  · intro err1 w1 hfirst hfv
    rw [update_first_other_error lib client w d err1 w1 hfirst hfv]
    rfl
  · intro w1 hfirst
    rw [update_first_ok lib client w d w1 hfirst]
    rfl

/-- C7 at concrete inputs: a Create and an Update of the raw value `[a, b]`
whose first attempt fails validation (a retry payload exists), and an Update
whose first attempt fails with a server error (one write call). -/
theorem C7_single_retry_moves_value_to_valueSource_witness :
    (∃ p2 : Payload,
      writePayloads (resourceTurbotPolicySettingCreate demoLib scriptedClient
        [.ok noSetting, .error validationError, .ok listSetting] demoData).calls
        = [buildPayload demoData, p2] ∧
      p2.lookup "value" = none ∧ p2.lookup "valueSource" = some "[a, b]" ∧
      ∀ k : String, k ≠ "value" → k ≠ "valueSource" →
        p2.lookup k = (buildPayload demoData).lookup k) ∧
    (∃ p2 : Payload,
      writePayloads (resourceTurbotPolicySettingUpdate demoLib scriptedClient
        [.error validationError, .ok listSetting] storedData).calls
        = [buildPayload storedData, p2] ∧
      p2.lookup "value" = none ∧ p2.lookup "valueSource" = some "[a, b]" ∧
      ∀ k : String, k ≠ "value" → k ≠ "valueSource" →
        p2.lookup k = (buildPayload storedData).lookup k) ∧
    writePayloads (resourceTurbotPolicySettingUpdate demoLib scriptedClient
        [.error serverError] storedData).calls = [buildPayload storedData] :=
  ⟨((C7_single_retry_moves_value_to_valueSource demoLib scriptedClient
      [.ok noSetting, .error validationError, .ok listSetting] demoData).2.1
      noSetting [.error validationError, .ok listSetting] rfl rfl).1
      validationError [.ok listSetting] rfl rfl,
   (C7_single_retry_moves_value_to_valueSource demoLib scriptedClient
      [.error validationError, .ok listSetting] storedData).2.2.1
      validationError [.ok listSetting] rfl rfl,
   (C7_single_retry_moves_value_to_valueSource demoLib scriptedClient
      [.error serverError] storedData).2.2.2.1 serverError [] rfl rfl⟩

/-! ## Encryption of the stored value -/

section CreateStores

variable {σ V : Type} (lib : Lib V) (client : Client σ V) (w : σ) (d : ResourceData)

/-- On the direct path with a usable key, Create stores both ciphertexts and
both fingerprints. -/
theorem create_direct_encrypts (existing : PolicySetting V) (w1 : σ)
    (hfind : client.FindPolicySetting w d.policy_type d.resource = (.ok existing, w1))
    (hval : existing.Value = none) (setting : PolicySetting V) (w2 : σ)
    (hfirst : client.CreatePolicySetting w1 d.policy_type d.resource (buildPayload d)
      = (.ok setting, w2))
    (hkey : d.pgp_key ≠ "") (fp1 ct1 fp2 ct2 : String)
    (h1 : lib.encryptValue d.pgp_key (settingValueToString lib setting.Value)
      = .ok (fp1, ct1))
    (h2 : lib.encryptValue d.pgp_key setting.ValueSource = .ok (fp2, ct2)) :
    (resourceTurbotPolicySettingCreate lib client w d).d =
      { d with id := setting.Turbot.Id, value := ct1, value_key_fingerprint := fp1,
               value_source := ct2, value_source_key_fingerprint := fp2 } := by
  rw [create_first_ok lib client w d existing w1 hfind hval setting w2 hfirst]
  show ((storeValue lib d setting).1).SetId setting.Turbot.Id = _
  rw [storeValue_key_ok lib d setting hkey fp1 ct1 fp2 ct2 h1 h2]
  rfl

/-- On the direct path without a key, Create stores the plaintext string form
of the value and the value source, and writes no fingerprint. -/
theorem create_direct_plaintext (existing : PolicySetting V) (w1 : σ)
    (hfind : client.FindPolicySetting w d.policy_type d.resource = (.ok existing, w1))
    (hval : existing.Value = none) (setting : PolicySetting V) (w2 : σ)
    (hfirst : client.CreatePolicySetting w1 d.policy_type d.resource (buildPayload d)
      = (.ok setting, w2))
    (hkey : d.pgp_key = "") :
    (resourceTurbotPolicySettingCreate lib client w d).d =
      { d with id := setting.Turbot.Id, value := settingValueToString lib setting.Value,
               value_source := setting.ValueSource } := by
  rw [create_first_ok lib client w d existing w1 hfind hval setting w2 hfirst]
  show ((storeValue lib d setting).1).SetId setting.Turbot.Id = _
  rw [storeValue_no_key lib d setting hkey]
  rfl

end CreateStores

/-- C8, at the failing input: with `pgp_key = "not-a-key"`, under which
`encryptValue` returns an error, Create returns no error and stores the id
`1706`, yet the stored `value` is plaintext and no fingerprint is stored: the
raw `[a, b]` on the direct path and the YAML-decoded `[a b]` on the
`valueSource` fallback path. -/
theorem C8_create_leaves_plaintext_when_encryption_fails :
    demoLib.encryptValue "not-a-key" (settingValueToString demoLib listSetting.Value)
      = .error ⟨"bad pgp key"⟩ ∧
    (resourceTurbotPolicySettingCreate demoLib scriptedClient
      [.ok noSetting, .ok listSetting] { demoData with pgp_key := "not-a-key" }).ret = none ∧
    (resourceTurbotPolicySettingCreate demoLib scriptedClient
      [.ok noSetting, .ok listSetting] { demoData with pgp_key := "not-a-key" }).d
      = { demoData with pgp_key := "not-a-key", id := "1706" } ∧
    (resourceTurbotPolicySettingCreate demoLib scriptedClient
      [.ok noSetting, .error validationError, .ok listSetting]
      { demoData with pgp_key := "not-a-key" }).ret = none ∧
    (resourceTurbotPolicySettingCreate demoLib scriptedClient
      [.ok noSetting, .error validationError, .ok listSetting]
      { demoData with pgp_key := "not-a-key" }).d
      = { demoData with pgp_key := "not-a-key", id := "1706", value := "[a b]",
                        value_source := "[a, b]", value_source_used := true } := by
  refine ⟨rfl, rfl, ?_, rfl, ?_⟩
  · decide
  · decide

/-! ## Policy-setting Exists -/

/-- C9: `resourceTurbotPolicySettingExists` returns `(true, nil)` exactly when
`ReadPolicySetting` succeeds, `(false, nil)` exactly when it fails with an
error classified as NotFound, and `(false, err)` for every other read error
`err`; the resource data is left unchanged. -/
theorem C9_exists_classifies_read
    {σ V : Type} (lib : Lib V) (client : Client σ V) (w : σ) (d : ResourceData) :
    ((resourceTurbotPolicySettingExists lib client w d).ret = (true, none) ↔
      ∃ (setting : PolicySetting V) (w1 : σ),
        client.ReadPolicySetting w d.id = (.ok setting, w1)) ∧
    ((resourceTurbotPolicySettingExists lib client w d).ret = (false, none) ↔
      ∃ (err : GoError) (w1 : σ),
        client.ReadPolicySetting w d.id = (.error err, w1) ∧
        lib.NotFoundError err = true) ∧
    (∀ (err : GoError) (w1 : σ),
      client.ReadPolicySetting w d.id = (.error err, w1) →
      lib.NotFoundError err = false →
      (resourceTurbotPolicySettingExists lib client w d).ret = (false, some err)) ∧
    (resourceTurbotPolicySettingExists lib client w d).d = d := by
  rcases hread : client.ReadPolicySetting w d.id with ⟨res, w1⟩
  cases res with
  | ok setting =>
    simp [resourceTurbotPolicySettingExists, hread]
  | error err =>
    cases hnf : lib.NotFoundError err with
    | true => simp [resourceTurbotPolicySettingExists, hread, hnf]
    | false =>
      simp only [resourceTurbotPolicySettingExists, hread, hnf]
      refine ⟨by simp, ?_, ?_, rfl⟩
      · constructor
        · intro h
          simp at h
        · rintro ⟨e, w2, he, hne⟩
          simp only [Prod.mk.injEq, Except.error.injEq] at he
          rw [← he.1, hnf] at hne
          exact absurd hne (by simp)
      · intro e w2 he _
        simp only [Prod.mk.injEq, Except.error.injEq] at he
        rw [he.1]
        simp

/-- C9 at three concrete inputs on the stored id `1706`: a read that succeeds,
a read that fails with the not-found error, and a read that fails with a
server error. -/
theorem C9_exists_classifies_read_witness :
    (resourceTurbotPolicySettingExists demoLib scriptedClient
      [.ok listSetting] storedData).ret = (true, none) ∧
    (resourceTurbotPolicySettingExists demoLib scriptedClient
      [.error notFoundError] storedData).ret = (false, none) ∧
    (resourceTurbotPolicySettingExists demoLib scriptedClient
      [.error serverError] storedData).ret = (false, some serverError) ∧
    (resourceTurbotPolicySettingExists demoLib scriptedClient
      [.error serverError] storedData).d = storedData :=
  ⟨(C9_exists_classifies_read demoLib scriptedClient [.ok listSetting] storedData).1.mpr
      ⟨listSetting, [], rfl⟩,
   (C9_exists_classifies_read demoLib scriptedClient
      [.error notFoundError] storedData).2.1.mpr ⟨notFoundError, [], rfl, rfl⟩,
   (C9_exists_classifies_read demoLib scriptedClient [.error serverError] storedData).2.2.1
      serverError [] rfl rfl,
   (C9_exists_classifies_read demoLib scriptedClient [.error serverError] storedData).2.2.2⟩

/-! ## Read -/

/-- C11: in `resourceTurbotPolicySettingRead` and in `resourceTurbotGrantRead`,
if the API read (`ReadPolicySetting`, `ReadGrant`) fails with an error
classified as NotFound, that error is returned and the stored id is cleared,
every other field being kept; if it fails with any other error, that error is
returned and the resource data, id included, is unchanged. -/
theorem C11_read_failure_clears_id_only_when_not_found
    {σ τ V : Type} (lib : Lib V) (client : Client σ V) (w : σ) (d : ResourceData)
    (glib : GrantLib) (gclient : GrantClient τ) (gw : τ) (gd : GrantResourceData) :
    (∀ (err : GoError) (w1 : σ),
      client.ReadPolicySetting w d.id = (.error err, w1) →
      (lib.NotFoundError err = true →
        (resourceTurbotPolicySettingRead lib client w d).ret = some err ∧
        (resourceTurbotPolicySettingRead lib client w d).d.id = "" ∧
        (resourceTurbotPolicySettingRead lib client w d).d = { d with id := "" }) ∧
      (lib.NotFoundError err = false →
        (resourceTurbotPolicySettingRead lib client w d).ret = some err ∧
        (resourceTurbotPolicySettingRead lib client w d).d = d)) ∧
    (∀ (err : GoError) (gw1 : τ),
      gclient.ReadGrant gw gd.id = (.error err, gw1) →
      (glib.NotFoundError err = true →
        (resourceTurbotGrantRead glib gclient gw gd).ret = some err ∧
        (resourceTurbotGrantRead glib gclient gw gd).d.id = "" ∧
        (resourceTurbotGrantRead glib gclient gw gd).d = { gd with id := "" }) ∧
      (glib.NotFoundError err = false →
        (resourceTurbotGrantRead glib gclient gw gd).ret = some err ∧
        (resourceTurbotGrantRead glib gclient gw gd).d = gd)) := by
  constructor
  · intro err w1 hread
    constructor
    · intro hnf
      simp [resourceTurbotPolicySettingRead, hread, hnf, ResourceData.SetId]
    · intro hnf
      simp [resourceTurbotPolicySettingRead, hread, hnf]
  · intro err gw1 hread
    constructor
    · intro hnf
      simp [resourceTurbotGrantRead, hread, hnf, GrantResourceData.SetId]
    · intro hnf
      simp [resourceTurbotGrantRead, hread, hnf]

/-- C11 at concrete inputs on the stored ids `1706` and `1900`: reads that
fail with the not-found error clear the id, reads that fail with a server
error leave the resource data as it was. -/
theorem C11_read_failure_clears_id_only_when_not_found_witness :
    ((resourceTurbotPolicySettingRead demoLib scriptedClient
        [.error notFoundError] storedData).ret = some notFoundError ∧
      (resourceTurbotPolicySettingRead demoLib scriptedClient
        [.error notFoundError] storedData).d.id = "") ∧
    ((resourceTurbotPolicySettingRead demoLib scriptedClient
        [.error serverError] storedData).ret = some serverError ∧
      (resourceTurbotPolicySettingRead demoLib scriptedClient
        [.error serverError] storedData).d = storedData) ∧
    ((resourceTurbotGrantRead demoGrantLib scriptedGrantClient
        [.failure notFoundError] storedGrantData).ret = some notFoundError ∧
      (resourceTurbotGrantRead demoGrantLib scriptedGrantClient
        [.failure notFoundError] storedGrantData).d.id = "") ∧
    ((resourceTurbotGrantRead demoGrantLib scriptedGrantClient
        [.failure serverError] storedGrantData).ret = some serverError ∧
      (resourceTurbotGrantRead demoGrantLib scriptedGrantClient
        [.failure serverError] storedGrantData).d = storedGrantData) :=
  have h1 := ((C11_read_failure_clears_id_only_when_not_found demoLib scriptedClient
    [.error notFoundError] storedData demoGrantLib scriptedGrantClient
    [.failure notFoundError] storedGrantData).1 notFoundError [] rfl).1 rfl
  have h2 := ((C11_read_failure_clears_id_only_when_not_found demoLib scriptedClient
    [.error serverError] storedData demoGrantLib scriptedGrantClient
    [.failure serverError] storedGrantData).1 serverError [] rfl).2 rfl
  have h3 := ((C11_read_failure_clears_id_only_when_not_found demoLib scriptedClient
    [.error notFoundError] storedData demoGrantLib scriptedGrantClient
    [.failure notFoundError] storedGrantData).2 notFoundError [] rfl).1 rfl
  have h4 := ((C11_read_failure_clears_id_only_when_not_found demoLib scriptedClient
    [.error serverError] storedData demoGrantLib scriptedGrantClient
    [.failure serverError] storedGrantData).2 serverError [] rfl).2 rfl
  ⟨⟨h1.1, h1.2.1⟩, h2, ⟨h3.1, h3.2.1⟩, h4⟩

/-! ## Delete -/

/-- C12: in `resourceTurbotPolicySettingDelete` and in
`resourceTurbotGrantDelete`, for every stored id, if the API delete succeeds
Delete returns no error and the stored id is empty afterwards; if the API
delete fails, Delete returns that error and the resource data, id included,
is unchanged. -/
theorem C12_delete_clears_id_on_success_only
    {σ τ V : Type} (client : Client σ V) (w : σ) (d : ResourceData)
    (gclient : GrantClient τ) (gw : τ) (gd : GrantResourceData) :
    (∀ (w1 : σ), client.DeletePolicySetting w d.id = (none, w1) →
      (resourceTurbotPolicySettingDelete client w d).ret = none ∧
      (resourceTurbotPolicySettingDelete client w d).d.id = "") ∧
    (∀ (err : GoError) (w1 : σ), client.DeletePolicySetting w d.id = (some err, w1) →
      (resourceTurbotPolicySettingDelete client w d).ret = some err ∧
      (resourceTurbotPolicySettingDelete client w d).d.id = d.id ∧
      (resourceTurbotPolicySettingDelete client w d).d = d) ∧
    (∀ (gw1 : τ), gclient.DeleteGrant gw gd.id = (none, gw1) →
      (resourceTurbotGrantDelete gclient gw gd).ret = none ∧
      (resourceTurbotGrantDelete gclient gw gd).d.id = "") ∧
    (∀ (err : GoError) (gw1 : τ), gclient.DeleteGrant gw gd.id = (some err, gw1) →
      (resourceTurbotGrantDelete gclient gw gd).ret = some err ∧
      (resourceTurbotGrantDelete gclient gw gd).d.id = gd.id ∧
      (resourceTurbotGrantDelete gclient gw gd).d = gd) := by
  refine ⟨?_, ?_, ?_, ?_⟩
  · intro w1 h
    simp [resourceTurbotPolicySettingDelete, h, ResourceData.SetId]
  · intro err w1 h
    simp [resourceTurbotPolicySettingDelete, h]
  · intro gw1 h
    simp [resourceTurbotGrantDelete, h, GrantResourceData.SetId]
  · intro err gw1 h
    simp [resourceTurbotGrantDelete, h]

/-- C12 at concrete inputs on the stored ids `1706` and `1900`: deletes that
succeed and deletes that fail with a server error. -/
theorem C12_delete_clears_id_on_success_only_witness :
    ((resourceTurbotPolicySettingDelete scriptedClient
        [.ok noSetting] storedData).ret = none ∧
      (resourceTurbotPolicySettingDelete scriptedClient
        [.ok noSetting] storedData).d.id = "") ∧
    ((resourceTurbotPolicySettingDelete scriptedClient
        [.error serverError] storedData).ret = some serverError ∧
      (resourceTurbotPolicySettingDelete scriptedClient
        [.error serverError] storedData).d.id = "1706") ∧
    ((resourceTurbotGrantDelete scriptedGrantClient [.done] storedGrantData).ret = none ∧
      (resourceTurbotGrantDelete scriptedGrantClient [.done] storedGrantData).d.id = "") ∧
    ((resourceTurbotGrantDelete scriptedGrantClient
        [.failure serverError] storedGrantData).ret = some serverError ∧
      (resourceTurbotGrantDelete scriptedGrantClient
        [.failure serverError] storedGrantData).d.id = "1900") :=
  have h1 := (C12_delete_clears_id_on_success_only scriptedClient [.ok noSetting] storedData
    scriptedGrantClient [.done] storedGrantData).1 [] rfl
  have h2 := (C12_delete_clears_id_on_success_only scriptedClient [.error serverError]
    storedData scriptedGrantClient [.failure serverError] storedGrantData).2.1
    serverError [] rfl
  have h3 := (C12_delete_clears_id_on_success_only scriptedClient [.ok noSetting] storedData
    scriptedGrantClient [.done] storedGrantData).2.2.1 [] rfl
  have h4 := (C12_delete_clears_id_on_success_only scriptedClient [.error serverError]
    storedData scriptedGrantClient [.failure serverError] storedGrantData).2.2.2
    serverError [] rfl
  ⟨h1, ⟨h2.1, h2.2.1⟩, h3, ⟨h4.1, h4.2.1⟩⟩

/-- In `resourceTurbotGrantRead`, a failure of `GetResourceAkas` after a
successful `ReadGrant` returns the error and leaves the resource data
unchanged, whatever the classification of the error. -/
theorem grantRead_akas_failure {τ : Type} (glib : GrantLib) (gclient : GrantClient τ)
    (gw : τ) (gd : GrantResourceData) (grant : Grant) (gw1 : τ)
    (hread : gclient.ReadGrant gw gd.id = (.ok grant, gw1)) (err : GoError) (gw2 : τ)
    (hakas : gclient.GetResourceAkas gw1 grant.Turbot.ResourceId = (.error err, gw2)) :
    (resourceTurbotGrantRead glib gclient gw gd).ret = some err ∧
    (resourceTurbotGrantRead glib gclient gw gd).d = gd := by
  simp [resourceTurbotGrantRead, hread, hakas]

/-! ## Grant Create -/

section GrantCreatePaths

variable {τ : Type} (glib : GrantLib) (gclient : GrantClient τ) (gw : τ)
  (gd : GrantResourceData)

theorem grantCreate_create_error (err : GoError) (gw1 : τ)
    (hcreate : gclient.CreateGrant gw gd.profile_id gd.resource
      (glib.mapFromResourceDataWithPropertyMap gd grantDataMap) = (.error err, gw1)) :
    resourceTurbotGrantCreate glib gclient gw gd =
      ⟨some err, gd, gw1,
        [.CreateGrant gd.profile_id gd.resource
          (glib.mapFromResourceDataWithPropertyMap gd grantDataMap)]⟩ := by
  simp [resourceTurbotGrantCreate, hcreate]

theorem grantCreate_akas_error (m : TurbotGrantMetadata) (gw1 : τ)
    (hcreate : gclient.CreateGrant gw gd.profile_id gd.resource
      (glib.mapFromResourceDataWithPropertyMap gd grantDataMap) = (.ok m, gw1))
    (err : GoError) (gw2 : τ)
    (hakas : gclient.GetResourceAkas gw1 gd.resource = (.error err, gw2)) :
    resourceTurbotGrantCreate glib gclient gw gd =
      ⟨some err, gd, gw2,
        [.CreateGrant gd.profile_id gd.resource
          (glib.mapFromResourceDataWithPropertyMap gd grantDataMap),
         .GetResourceAkas gd.resource]⟩ := by
  simp [resourceTurbotGrantCreate, hcreate, hakas]

theorem grantCreate_ok (m : TurbotGrantMetadata) (gw1 : τ)
    (hcreate : gclient.CreateGrant gw gd.profile_id gd.resource
      (glib.mapFromResourceDataWithPropertyMap gd grantDataMap) = (.ok m, gw1))
    (akas : List String) (gw2 : τ)
    (hakas : gclient.GetResourceAkas gw1 gd.resource = (.ok akas, gw2)) :
    resourceTurbotGrantCreate glib gclient gw gd =
      ⟨none, { gd with id := m.Id, resource_akas := some akas }, gw2,
        [.CreateGrant gd.profile_id gd.resource
          (glib.mapFromResourceDataWithPropertyMap gd grantDataMap),
         .GetResourceAkas gd.resource]⟩ := by
  simp [resourceTurbotGrantCreate, hcreate, hakas, GrantResourceData.SetId]

end GrantCreatePaths

/-- C13: grant Create returns no error if and only if both `CreateGrant` and
the following `GetResourceAkas` succeed; then the stored id is the id of the
metadata returned by `CreateGrant` and the stored `resource_akas` is the list
returned by `GetResourceAkas`. If `CreateGrant` fails, or `GetResourceAkas`
fails after `CreateGrant` succeeded, that error is returned and the resource
data (id and `resource_akas` included) is unchanged. -/
theorem C13_grant_create_stores_id_and_akas
    {τ : Type} (glib : GrantLib) (gclient : GrantClient τ) (gw : τ)
    (gd : GrantResourceData) :
    ((resourceTurbotGrantCreate glib gclient gw gd).ret = none ↔
      ∃ (m : TurbotGrantMetadata) (gw1 : τ) (akas : List String) (gw2 : τ),
        gclient.CreateGrant gw gd.profile_id gd.resource
          (glib.mapFromResourceDataWithPropertyMap gd grantDataMap) = (.ok m, gw1) ∧
        gclient.GetResourceAkas gw1 gd.resource = (.ok akas, gw2)) ∧
    (∀ (m : TurbotGrantMetadata) (gw1 : τ) (akas : List String) (gw2 : τ),
      gclient.CreateGrant gw gd.profile_id gd.resource
        (glib.mapFromResourceDataWithPropertyMap gd grantDataMap) = (.ok m, gw1) →
      gclient.GetResourceAkas gw1 gd.resource = (.ok akas, gw2) →
      (resourceTurbotGrantCreate glib gclient gw gd).d.id = m.Id ∧
      (resourceTurbotGrantCreate glib gclient gw gd).d.resource_akas = some akas) ∧
    (∀ (err : GoError) (gw1 : τ),
      gclient.CreateGrant gw gd.profile_id gd.resource
        (glib.mapFromResourceDataWithPropertyMap gd grantDataMap) = (.error err, gw1) →
      (resourceTurbotGrantCreate glib gclient gw gd).ret = some err ∧
      (resourceTurbotGrantCreate glib gclient gw gd).d = gd) ∧
    (∀ (m : TurbotGrantMetadata) (gw1 : τ) (err : GoError) (gw2 : τ),
      gclient.CreateGrant gw gd.profile_id gd.resource
        (glib.mapFromResourceDataWithPropertyMap gd grantDataMap) = (.ok m, gw1) →
      gclient.GetResourceAkas gw1 gd.resource = (.error err, gw2) →
      (resourceTurbotGrantCreate glib gclient gw gd).ret = some err ∧
      (resourceTurbotGrantCreate glib gclient gw gd).d = gd) := by
  refine ⟨?_, ?_, ?_, ?_⟩
  · rcases hcreate : gclient.CreateGrant gw gd.profile_id gd.resource
      (glib.mapFromResourceDataWithPropertyMap gd grantDataMap) with ⟨res, gw1⟩
    cases res with
    | error err =>
      rw [grantCreate_create_error glib gclient gw gd err gw1 hcreate]
      simp
    | ok m =>
      rcases hakas : gclient.GetResourceAkas gw1 gd.resource with ⟨res2, gw2⟩
      cases res2 with
      | error err =>
        rw [grantCreate_akas_error glib gclient gw gd m gw1 hcreate err gw2 hakas]
        simp [hakas]
      | ok akas =>
        rw [grantCreate_ok glib gclient gw gd m gw1 hcreate akas gw2 hakas]
        exact ⟨fun _ => ⟨m, gw1, akas, gw2, rfl, hakas⟩, fun _ => rfl⟩
  · intro m gw1 akas gw2 hcreate hakas
    rw [grantCreate_ok glib gclient gw gd m gw1 hcreate akas gw2 hakas]
    exact ⟨rfl, rfl⟩
  · intro err gw1 hcreate
    rw [grantCreate_create_error glib gclient gw gd err gw1 hcreate]
    exact ⟨rfl, rfl⟩
  · intro m gw1 err gw2 hcreate hakas
    rw [grantCreate_akas_error glib gclient gw gd m gw1 hcreate err gw2 hakas]
    exact ⟨rfl, rfl⟩

/-- C13 at concrete inputs: a Create where both calls succeed stores the id
`1900` and the fetched akas; a Create whose aka fetch fails after `CreateGrant`
succeeded returns the error and stores nothing. -/
theorem C13_grant_create_stores_id_and_akas_witness :
    ((resourceTurbotGrantCreate demoGrantLib scriptedGrantClient
        [.metadata grantMetadata, .akas ["tmod:@turbot/turbot#/"]] demoGrantData).ret = none ∧
      (resourceTurbotGrantCreate demoGrantLib scriptedGrantClient
        [.metadata grantMetadata, .akas ["tmod:@turbot/turbot#/"]] demoGrantData).d.id
        = "1900" ∧
      (resourceTurbotGrantCreate demoGrantLib scriptedGrantClient
        [.metadata grantMetadata, .akas ["tmod:@turbot/turbot#/"]]
        demoGrantData).d.resource_akas = some ["tmod:@turbot/turbot#/"]) ∧
    ((resourceTurbotGrantCreate demoGrantLib scriptedGrantClient
        [.metadata grantMetadata, .failure serverError] demoGrantData).ret
        = some serverError ∧
      (resourceTurbotGrantCreate demoGrantLib scriptedGrantClient
        [.metadata grantMetadata, .failure serverError] demoGrantData).d = demoGrantData) :=
  have h := C13_grant_create_stores_id_and_akas demoGrantLib scriptedGrantClient
    [.metadata grantMetadata, .akas ["tmod:@turbot/turbot#/"]] demoGrantData
  have h2 := C13_grant_create_stores_id_and_akas demoGrantLib scriptedGrantClient
    [.metadata grantMetadata, .failure serverError] demoGrantData
  ⟨⟨h.1.mpr ⟨grantMetadata, [.akas ["tmod:@turbot/turbot#/"]],
        ["tmod:@turbot/turbot#/"], [], rfl, rfl⟩,
     (h.2.1 grantMetadata [.akas ["tmod:@turbot/turbot#/"]]
        ["tmod:@turbot/turbot#/"] [] rfl rfl).1,
     (h.2.1 grantMetadata [.akas ["tmod:@turbot/turbot#/"]]
        ["tmod:@turbot/turbot#/"] [] rfl rfl).2⟩,
   h2.2.2.2 grantMetadata [.failure serverError] serverError [] rfl rfl⟩

/-! ## Diff suppression, characterised -/

/-- C15: `suppressIfEncryptedOrValueSourceMatches` returns true if and only if
old is non-empty and a `pgp_key` is present, or new equals the stored
`value_source` when `value_source_used` is true, or new equals old when
`value_source_used` is false; with an empty old value it returns false for
every new value and every stored state. -/
theorem C15_suppress_iff
    (k old new : String) (d : ResourceData) :
    (suppressIfEncryptedOrValueSourceMatches k old new d = true ↔
      old ≠ "" ∧
      (d.pgp_key ≠ "" ∨
       (d.value_source_used = true ∧ new = d.value_source) ∨
       (d.value_source_used = false ∧ new = old))) ∧
    suppressIfEncryptedOrValueSourceMatches k "" new d = false := by
  refine ⟨?_, by simp [suppressIfEncryptedOrValueSourceMatches]⟩
  by_cases hold : old = ""
  · simp [suppressIfEncryptedOrValueSourceMatches, hold]
  · cases hu : d.value_source_used with
    | true => simp [suppressIfEncryptedOrValueSourceMatches, GetOkString, hold, hu]
    | false => simp [suppressIfEncryptedOrValueSourceMatches, GetOkString, hold, hu]

/-! ## `BuildApiUrl` -/

theorem notSlash_of_ne (hs : List Char) (hh : ∀ c ∈ hs, c ≠ '/') :
    ∀ c ∈ hs, notSlash c = true := by
  intro c hc
  simpa [notSlash] using hh c hc

theorem takeWhile_notSlash_self (hs : List Char) (hh : ∀ c ∈ hs, c ≠ '/') :
    hs.takeWhile notSlash = hs := by
  have h := @List.takeWhile_append_of_pos Char notSlash hs [] (notSlash_of_ne hs hh)
  simpa using h

theorem dropWhile_notSlash_self (hs : List Char) (hh : ∀ c ∈ hs, c ≠ '/') :
    hs.dropWhile notSlash = [] := by
  have h := @List.dropWhile_append_of_pos Char notSlash hs [] (notSlash_of_ne hs hh)
  simpa using h

/-- A slash-free input has no scheme. -/
theorem urlScheme_host (hs : List Char) (hh : ∀ c ∈ hs, c ≠ '/') :
    urlScheme hs = none := by
  simp [urlScheme, dropWhile_notSlash_self hs hh]

/-- An error of the host rule on a slash-free input that is only a host is the
error `BuildApiUrl` returns. -/
theorem BuildApiUrl_host_refused (hostRule : String → Except GoError String)
    (h : String) (hh : ∀ c ∈ h.data, c ≠ '/') (err : GoError)
    (hrule : hostRule h = .error err) :
    BuildApiUrl hostRule h = ("", some err) := by
  have hens : ensureScheme h.data = ("https".toList, h.data) := by
    simp [ensureScheme, urlScheme_host h.data hh]
  have hrule2 : hostRule (String.mk h.data) = .error err := hrule
  unfold BuildApiUrl buildApiUrlChars
  rw [hens]
  simp only []
  rw [takeWhile_notSlash_self h.data hh, hrule2]

/-- Under every host rule for which row 3 of `TestBuildApiUrl` passes, the
url returned for the short host `bananaman-turbot.putney` is the one on the
completed host, not `https://bananaman-turbot.putney/api/latest/graphql`. -/
theorem BuildApiUrl_short_host_of_test (hostRule : String → Except GoError String)
    (hrow : testBuildApiUrlRow hostRule
      ⟨"bananaman-turbot.putney",
        "https://bananaman-turbot.putney.turbot.io/api/latest/graphql", true⟩ = true) :
    (BuildApiUrl hostRule "bananaman-turbot.putney").1
      = "https://bananaman-turbot.putney.turbot.io/api/latest/graphql" ∧
    (BuildApiUrl hostRule "bananaman-turbot.putney").1
      ≠ "https://" ++ "bananaman-turbot.putney" ++ "/api/latest/graphql" := by
  have h : (BuildApiUrl hostRule "bananaman-turbot.putney").1
      = "https://bananaman-turbot.putney.turbot.io/api/latest/graphql" := by
    simpa [testBuildApiUrlRow] using hrow
  refine ⟨h, ?_⟩
  rw [h]
  decide

end Turbot
